import Mathlib

/-!
Shallow embedding of the `texti` terminal text editor (Rust) core:
the Action/AsyncAction vocabulary, `ActionResult`, the `write_file`
operation, the editor component with its overlay children, the navigator
screen state machine, the App event loop, and the file-history saver.

Conventions of the embedding:
* Rust `PathBuf`/paths are `String`s; the filesystem is the explicit
  `FileSys` value threaded through the functions that read or write it.
* The tui-textarea text widget and the system clipboard are external
  collaborator capabilities (out of scope per the spec); they are modelled
  by `TextArea` (text split as before/selection/after plus a row counter
  for vertical motion) and by `Option String` (clipboard contents;
  `none` = capability unavailable), covering exactly the operations the
  editor invokes.
* Channel sends are returned as explicit lists (`List Action`,
  `List AsyncAction`); spawned background writes are returned as
  `WriteTask` values to be executed against a `FileSys` via `write_file`.
* The repository snapshot contains several revisions of some files
  (`action.rs` lacks the `ConfirmOverwrite` and `SaveTo` variants that
  `component_utils.rs` and the editor use). The embedding follows the
  files the claims cite and takes the union of the `Action` variants the
  embedded components reference.
-/

namespace Texti

/-- Screen identity (`AppComponent` in `src/component/mod.rs`). -/
inductive AppComponent where
  | HomeScreen
  | OpenedEditor (path : String)
  | FileDialog
  | Editor
  | Dialog
deriving DecidableEq

/-- `SaveFileResult` — outcome contract of the write-file operation.
`action.rs` in the snapshot is an older revision without
`ConfirmOverwrite`; `component_utils.rs::write_file` and the editor's
`handle_file_saved` use it, so it is included here. -/
inductive SaveFileResult where
  | Saved (path : String)
  | Error (msg : String)
  | MissingName
  | ConfirmOverwrite
deriving DecidableEq

/-- `SelectorType` from `action.rs`. -/
inductive SelectorType where
  | PickFolder
  | PickFile
  | NewFile
deriving DecidableEq

def SelectorType.show_files (s : SelectorType) : Bool :=
  s = SelectorType.PickFile

def SelectorType.can_pick_folder (s : SelectorType) : Bool :=
  s ≠ SelectorType.PickFile

/-- The user-action vocabulary (`Action` in `action.rs`, union of the
variants referenced across the snapshot's revisions:  `SaveTo`,
`ToggleLineNumber`, `ToggleSearchRegex`, `ToggleHelp`, `TogglePreview`,
`ReloadPreview`, `Resize`, `NewFile`, `FileHistory`, `Config` are matched
by the embedded components). -/
inductive Action where
  | Character (c : Char)
  | PasteText (s : String)
  | Save
  | SaveTo
  | Tick
  | Up
  | Down
  | Left
  | Right
  | SelectUp
  | SelectDown
  | SelectLeft
  | SelectRight
  | Confirm
  | Cancel
  | SelectAll
  | Paste
  | Cut
  | Copy
  | Insert
  | Backspace
  | Search
  | NewLine
  | Help
  | ToggleHelp
  | Return
  | Undo
  | Redo
  | Quit
  | Tab
  | Delete
  | OpenFile
  | Select
  | PageDown
  | PageUp
  | EndOfWord
  | StartOfWord
  | ToggleLineNumber
  | ToggleSearchRegex
  | TogglePreview
  | ReloadPreview
  | Resize
  | NewFile
  | FileHistory
  | Config
deriving DecidableEq

/-- `Action::is_directional_action` from `action.rs`. -/
def Action.is_directional_action : Action → Bool
  | .Up | .Down | .Left | .Right => true
  | _ => false

/-- `AsyncAction` from `action.rs` (with the `PreviewContents` variant the
preview component of the snapshot handles). -/
inductive AsyncAction where
  | LoadFileContents (s : String)
  | SavedFile (r : SaveFileResult)
  | Navigate (c : Option AppComponent)
  | SelectPath (path : String) (selector : SelectorType)
  | Error (msg : String)
  | StartAnimation
  | StopAnimation
  | PreviewContents (contents : Option String)
deriving DecidableEq

/-- `ActionResult` from `action.rs`. -/
inductive ActionResult where
  | Consumed (rerender : Bool)
  | NotConsumed (rerender : Bool)
deriving DecidableEq

def ActionResult.is_consumed : ActionResult → Bool
  | .Consumed _ => true
  | .NotConsumed _ => false

def ActionResult.is_not_consumed : ActionResult → Bool
  | .Consumed _ => false
  | .NotConsumed _ => true

def ActionResult.should_rerender : ActionResult → Bool
  | .Consumed r => r
  | .NotConsumed r => r

def ActionResult.consumed (rerender : Bool) : ActionResult :=
  ActionResult.Consumed rerender

def ActionResult.not_consumed (rerender : Bool) : ActionResult :=
  ActionResult.NotConsumed rerender

/-- `ActionResult::default()` = NotConsumed + no rerender. -/
def ActionResult.defaultResult : ActionResult :=
  ActionResult.NotConsumed false

/-! ## Filesystem model

A flat map from path to contents plus a set of directory paths; this is
the state `write_file` (in `component_utils.rs`) reads and mutates. -/

structure FileSys where
  files : List (String × String)
  dirs : List String
deriving DecidableEq

def FileSys.isFile (fs : FileSys) (p : String) : Bool :=
  fs.files.any (fun q => q.1 = p)

def FileSys.is_dir (fs : FileSys) (p : String) : Bool :=
  fs.dirs.contains p

def FileSys.pathExists (fs : FileSys) (p : String) : Bool :=
  fs.isFile p || fs.is_dir p

def FileSys.readFile (fs : FileSys) (p : String) : Option String :=
  (fs.files.find? (fun q => q.1 = p)).map (fun q => q.2)

def FileSys.setFile (fs : FileSys) (p contents : String) : FileSys :=
  { fs with files := (p, contents) :: fs.files.filter (fun q => q.1 ≠ p) }

/-- `write_file` from `component_utils.rs`: if the path exists and
`overwrite` is false, returns `ConfirmOverwrite` without writing; if the
path is a directory, `MissingName`; otherwise creates/truncates the file
with the given contents and returns `Saved`.  The `create_dir_all` of the
missing parent directories and the create/write/flush I/O error paths of
the source always succeed in this model (the model filesystem cannot
fail), so the corresponding `Error` results are unreachable here. -/
def write_file (fs : FileSys) (path lines : String) (overwrite : Bool) :
    SaveFileResult × FileSys :=
  if fs.pathExists path && !overwrite then
    (SaveFileResult.ConfirmOverwrite, fs)
  else if fs.is_dir path then
    (SaveFileResult.MissingName, fs)
  else
    (SaveFileResult.Saved path, fs.setFile path lines)

/-! ## Text-area capability model

The tui-textarea widget is an external collaborator (spec: out of scope,
"a text-area capability exists and can be commanded").  The model keeps
the text split into the part before the cursor, the currently selected
text and the part after it, a `selecting` flag, the yank buffer, the
search pattern, and a row counter that records vertical cursor motion.
Only the operations the editor and its overlays invoke are modelled. -/

inductive CursorMove where
  | Back
  | Forward
  | Up
  | Down
  | Top
  | WordForward
  | WordBack
  | WordEnd
deriving DecidableEq

structure TextArea where
  before : String
  sel : String
  after : String
  selecting : Bool
  yank : String
  searchPattern : String
  row : Nat
  lineNumbers : Bool
deriving DecidableEq

def TextArea.empty : TextArea :=
  { before := "", sel := "", after := "", selecting := false, yank := "",
    searchPattern := "", row := 0, lineNumbers := false }

/-- The whole buffer text (`lines().join("\n")` of the capability). -/
def TextArea.text (ta : TextArea) : String :=
  ta.before ++ ta.sel ++ ta.after

def TextArea.is_selecting (ta : TextArea) : Bool :=
  ta.selecting

def TextArea.start_selection (ta : TextArea) : TextArea :=
  { ta with selecting := true }

/-- Cancelling a selection keeps the text and leaves the cursor at the
selection end. -/
def TextArea.cancel_selection (ta : TextArea) : TextArea :=
  { ta with selecting := false, before := ta.before ++ ta.sel, sel := "" }

/-- Cursor movement.  Horizontal moves shift one character across the
cursor (growing/shrinking the selection while one is active); vertical
moves are tracked through the row counter (the capability's line
geometry is not part of the core).  Word motions are not modelled. -/
def TextArea.move_cursor (m : CursorMove) (ta : TextArea) : TextArea :=
  match m with
  | .Forward =>
      if ta.selecting then
        { ta with sel := ta.sel ++ ta.after.take 1, after := ta.after.drop 1 }
      else
        { ta with before := ta.before ++ ta.after.take 1, after := ta.after.drop 1 }
  | .Back =>
      if ta.selecting then
        { ta with sel := ta.sel.dropRight 1, after := ta.sel.takeRight 1 ++ ta.after }
      else
        { ta with before := ta.before.dropRight 1,
                  after := ta.before.takeRight 1 ++ ta.after }
  | .Up => { ta with row := ta.row - 1 }
  | .Down => { ta with row := ta.row + 1 }
  | .Top => { ta with row := 0 }
  | .WordForward | .WordBack | .WordEnd => ta

def TextArea.insert_char (ta : TextArea) (c : Char) : TextArea :=
  { ta with before := ta.before.push c }

/-- `delete_char` (backspace); returns whether a character was deleted. -/
def TextArea.delete_char (ta : TextArea) : TextArea × Bool :=
  if ta.before = "" then (ta, false)
  else ({ ta with before := ta.before.dropRight 1 }, true)

/-- `delete_next_char`; returns whether a character was deleted. -/
def TextArea.delete_next_char (ta : TextArea) : TextArea × Bool :=
  if ta.after = "" then (ta, false)
  else ({ ta with after := ta.after.drop 1 }, true)

def TextArea.insert_newline (ta : TextArea) : TextArea :=
  { ta with before := ta.before ++ "\n" }

def TextArea.insert_tab (ta : TextArea) : TextArea :=
  { ta with before := ta.before ++ "\t" }

/-- `insert_str`; returns whether the text changed. -/
def TextArea.insert_str (ta : TextArea) (s : String) : TextArea × Bool :=
  ({ ta with before := ta.before ++ s }, s ≠ "")

/-- `cut`: removes the selected text into the yank buffer and clears the
selection; no-op without an active selection. -/
def TextArea.cut (ta : TextArea) : TextArea :=
  if ta.selecting then
    { ta with sel := "", selecting := false, yank := ta.sel }
  else ta

/-- `copy`: yanks the selected text, keeps the text, clears the
selection; no-op without an active selection. -/
def TextArea.copy (ta : TextArea) : TextArea :=
  if ta.selecting then
    { ta with before := ta.before ++ ta.sel, sel := "", selecting := false,
              yank := ta.sel }
  else ta

def TextArea.yank_text (ta : TextArea) : String :=
  ta.yank

def TextArea.set_yank_text (ta : TextArea) (s : String) : TextArea :=
  { ta with yank := s }

def TextArea.select_all (ta : TextArea) : TextArea :=
  { ta with before := "", sel := ta.text, after := "", selecting := true }

/-- Undo/redo history is internal to the external capability and not
modelled: the call reports "nothing to undo/redo". -/
def TextArea.undo (ta : TextArea) : TextArea × Bool := (ta, false)

def TextArea.redo (ta : TextArea) : TextArea × Bool := (ta, false)

/-- `set_search_pattern`: records the pattern; pattern compilation by the
external regex crate is modelled as always succeeding. -/
def TextArea.set_search_pattern (ta : TextArea) (p : String) :
    TextArea × Bool :=
  ({ ta with searchPattern := p }, true)

/-- Search motion over the external widget is not modelled: "not found". -/
def TextArea.search_forward (ta : TextArea) : TextArea × Bool := (ta, false)

def TextArea.search_back (ta : TextArea) : TextArea × Bool := (ta, false)

/-! ## Buffer (`src/component/editor/buffer.rs`)

The clipboard capability (`ClipboardContext`) is external; it is modelled
as `Option String` — `none` when the capability is unavailable
(`new_clipboard()` failed), otherwise the clipboard contents. -/

structure Buffer where
  text_area : TextArea
  file_path : Option String
  modified : Bool
  clipboard_context : Option String
  current_path_string : Option String
deriving DecidableEq

def MAX_PATH_STRING_DEPTH : Nat := 10

/-- `Buffer::current_path`: human-readable string of the parents of
`path`, depth-limited, `".../"`-prefixed when the limit is reached. -/
def Buffer.current_path (path : String) (depth_limit : Nat) : Option String :=
  let parents := ((path.splitOn "/").dropLast).filter (fun s => s ≠ "")
  let kept := (parents.reverse.take depth_limit).reverse
  let joined := String.intercalate "/" kept
  some (if depth_limit ≤ parents.length then ".../" ++ joined else joined)

def Buffer.new (file : Option String) : Buffer :=
  { text_area := TextArea.empty
    file_path := file
    modified := false
    clipboard_context := none
    current_path_string :=
      match file with
      | some p => Buffer.current_path p 10
      | none => none }

/-- The process working directory (`std::env::current_dir`), a fixed
ambient value in the model. -/
def current_dir : String := "/"

/-- Parent directory of a path string (`Path::parent`, `"/"` fallback). -/
def parentPath (p : String) : String :=
  let parts := (p.splitOn "/").dropLast
  let joined := String.intercalate "/" parts
  if joined = "" then "/" else joined

/-- `Buffer::current_directory`. -/
def Buffer.current_directory (fs : FileSys) (b : Buffer) : String :=
  match b.file_path with
  | some path => if fs.is_dir path then path else parentPath path
  | none => current_dir

/-- `Buffer::clear_text`. -/
def Buffer.clear_text (b : Buffer) : Buffer :=
  { b with modified := false, text_area := TextArea.empty }

/-- `Buffer::change_path`: updates the cached path string and the path,
and clears the modified flag. -/
def Buffer.change_path (b : Buffer) (path : String) : Buffer :=
  { b with current_path_string := Buffer.current_path path MAX_PATH_STRING_DEPTH
           file_path := some path
           modified := false }

/-- `Buffer::push_to_clipboard`: fails with "Clipboard is unavailable"
when the capability is absent; the capability's own set-contents failure
is not modelled (the model clipboard cannot fail once present). -/
def Buffer.push_to_clipboard (b : Buffer) (text : String) :
    Buffer × Except String Unit :=
  match b.clipboard_context with
  | none => (b, Except.error "Clipboard is unavailable")
  | some _ => ({ b with clipboard_context := some text }, Except.ok ())

/-- `Buffer::get_from_clipboard` (`None` when unavailable). -/
def Buffer.get_from_clipboard (b : Buffer) : Option String :=
  b.clipboard_context

/-! ## Notification component (`src/component/notification.rs`) -/

def TICKS_UNTIL_REMOVE_POPUP : Nat := 2

/-- `TickCount<String>` as used by the notification. -/
structure TickCount where
  value : String
  count : Nat
deriving DecidableEq

def TickCount.new (value : String) : TickCount :=
  { value := value, count := TICKS_UNTIL_REMOVE_POPUP }

/-- `TickCount::countdown`: true once the count is exhausted. -/
def TickCount.countdown (t : TickCount) : TickCount × Bool :=
  if t.count = 0 then (t, true) else ({ t with count := t.count - 1 }, false)

structure Notification where
  title : TickCount
  error : Bool
deriving DecidableEq

structure NotificationComponent where
  notification : Option Notification
deriving DecidableEq

def NotificationComponent.notify_text (n : NotificationComponent)
    (text : String) : NotificationComponent :=
  { n with notification := some { title := TickCount.new text, error := false } }

def NotificationComponent.notify_error (n : NotificationComponent)
    (text : String) : NotificationComponent :=
  { n with notification := some { title := TickCount.new text, error := true } }

def NotificationComponent.handle_tick_action (n : NotificationComponent) :
    NotificationComponent × ActionResult :=
  match n.notification with
  | some c =>
      let (t, done) := c.title.countdown
      ({ notification := if done then none else some { c with title := t } },
        ActionResult.consumed true)
  | none => (n, ActionResult.defaultResult)

def NotificationComponent.handle_action_ref (n : NotificationComponent)
    (action : Action) : NotificationComponent × ActionResult :=
  match action with
  | .Tick => n.handle_tick_action
  | .Cancel =>
      match n.notification with
      | some _ => ({ notification := none }, ActionResult.consumed true)
      | none => (n, ActionResult.defaultResult)
  | _ => (n, ActionResult.defaultResult)

/-! ## Confirm dialog (`src/component/confirm_dialog.rs`)

The decorative show-effect and the key labels derived from the config are
presentation only and not modelled.  The registered `ActionSender` is the
returned `List Action` of sends. -/

structure ConfirmDialogComponent where
  title : String
  message : String
  action_on_confirm : Option Action
deriving DecidableEq

def ConfirmDialogComponent.empty : ConfirmDialogComponent :=
  { title := "", message := "", action_on_confirm := none }

def ConfirmDialogComponent.show (d : ConfirmDialogComponent)
    (title message : String) (action_on_confirm : Action) :
    ConfirmDialogComponent :=
  { d with title := title, message := message,
           action_on_confirm := some action_on_confirm }

def ConfirmDialogComponent.visible (d : ConfirmDialogComponent) : Bool :=
  d.action_on_confirm.isSome

/-- `ConfirmDialogComponent::handle_action`.  The source guards on
`visible()` and then unwraps the pending action on `Confirm`; matching on
`action_on_confirm` expresses the same control flow. -/
def ConfirmDialogComponent.handle_action (d : ConfirmDialogComponent)
    (action : Action) : ConfirmDialogComponent × ActionResult × List Action :=
  match d.action_on_confirm with
  | none => (d, ActionResult.not_consumed false, [])
  | some pending =>
      match action with
      | .Confirm =>
          ({ d with action_on_confirm := none }, ActionResult.consumed true,
            [pending])
      | .Cancel =>
          ({ d with action_on_confirm := none }, ActionResult.consumed true, [])
      | _ => (d, ActionResult.consumed false, [])

/-! ## Help overlay (`src/component/help.rs`)

The keybind list, widths, titles and the enter effect are presentation
only; the action-relevant state is the visibility flag and the scroll
position. -/

structure HelpComponent where
  visible : Bool
  scroll_offset : Nat
  max_offset : Nat
deriving DecidableEq

def HelpComponent.empty : HelpComponent :=
  { visible := false, scroll_offset := 0, max_offset := 0 }

def HelpComponent.toggle_visible (h : HelpComponent) :
    HelpComponent × ActionResult :=
  ({ h with visible := !h.visible }, ActionResult.consumed true)

def HelpComponent.scroll_up (h : HelpComponent) : HelpComponent × ActionResult :=
  if h.scroll_offset > 0 then
    ({ h with scroll_offset := h.scroll_offset - 1 }, ActionResult.consumed true)
  else (h, ActionResult.defaultResult)

def HelpComponent.scroll_down (h : HelpComponent) :
    HelpComponent × ActionResult :=
  if h.scroll_offset < h.max_offset then
    ({ h with scroll_offset := h.scroll_offset + 1 }, ActionResult.consumed true)
  else (h, ActionResult.defaultResult)

def HelpComponent.handle_action (h : HelpComponent) (action : Action) :
    HelpComponent × ActionResult :=
  if !h.visible then
    if action = Action.ToggleHelp then h.toggle_visible
    else (h, ActionResult.not_consumed false)
  else
    match action with
    | .Up => h.scroll_up
    | .Down => h.scroll_down
    | .ToggleHelp => h.toggle_visible
    | _ => (h, ActionResult.defaultResult)

/-! ## Search box (`src/component/editor/search_box.rs`) -/

structure SearchBoxComponent where
  text_area : Option TextArea
  error : Bool
  regex : Bool
deriving DecidableEq

def SearchBoxComponent.empty : SearchBoxComponent :=
  { text_area := none, error := false, regex := false }

def SearchBoxComponent.visible (s : SearchBoxComponent) : Bool :=
  s.text_area.isSome

def SearchBoxComponent.toggle (s : SearchBoxComponent) : SearchBoxComponent :=
  match s.text_area with
  | some _ => { s with text_area := none }
  | none => { s with text_area := some TextArea.empty }

def SearchBoxComponent.stop_search (s : SearchBoxComponent) :
    SearchBoxComponent :=
  { s with error := false, text_area := none, regex := false }

/-- Escaping by the external regex crate is not modelled (no claim
depends on the pattern text actually applied). -/
def regexEscape (s : String) : String := s

/-- `apply_search_pattern`: pushes the (escaped) search text of the box
into the main text area's search pattern. -/
def SearchBoxComponent.apply_search_pattern (s : SearchBoxComponent)
    (search_area : TextArea) : SearchBoxComponent × TextArea :=
  match s.text_area with
  | none => (s, (search_area.set_search_pattern "").1)
  | some box =>
      let pat := if s.regex then box.text else regexEscape box.text
      let (ta, _) := search_area.set_search_pattern pat
      ({ s with error := false }, ta)

/-- `receive_action` — the inner action match of the search box; the
second component of the result tells the caller whether to re-apply the
search pattern. -/
def SearchBoxComponent.receive_action (s : SearchBoxComponent)
    (action : Action) : SearchBoxComponent × ActionResult × Bool :=
  match s.text_area with
  | none => (s, ActionResult.consumed false, false)
  | some box =>
      match action with
      | .SelectRight =>
          let box := if box.is_selecting then box else box.start_selection
          ({ s with text_area := some (box.move_cursor .Forward) },
            ActionResult.consumed true, false)
      | .SelectLeft =>
          let box := if box.is_selecting then box else box.start_selection
          ({ s with text_area := some (box.move_cursor .Back) },
            ActionResult.consumed true, false)
      | .Left =>
          let box := if box.is_selecting then box.cancel_selection else box
          ({ s with text_area := some (box.move_cursor .Back) },
            ActionResult.consumed true, false)
      | .Right =>
          let box := if box.is_selecting then box.cancel_selection else box
          ({ s with text_area := some (box.move_cursor .Forward) },
            ActionResult.consumed true, false)
      | .EndOfWord =>
          ({ s with text_area := some (box.move_cursor .WordEnd) },
            ActionResult.consumed true, false)
      | .StartOfWord =>
          ({ s with text_area := some (box.move_cursor .WordBack) },
            ActionResult.consumed true, false)
      | .Character c =>
          ({ s with text_area := some (box.insert_char c) },
            ActionResult.consumed true, true)
      | .Delete =>
          let (box, deleted) := box.delete_next_char
          ({ s with text_area := some box }, ActionResult.consumed deleted, true)
      | .Backspace =>
          let (box, deleted) := box.delete_char
          ({ s with text_area := some box }, ActionResult.consumed deleted, true)
      | .Search => (s.toggle, ActionResult.consumed true, true)
      | .ToggleSearchRegex =>
          ({ s with regex := !s.regex }, ActionResult.consumed true, true)
      | .Cancel => (s.stop_search, ActionResult.consumed true, true)
      | _ => (s, ActionResult.consumed false, false)

/-- `SearchBoxComponent::handle_action` (the variant taking the main
buffer's text area, used by the editor). -/
def SearchBoxComponent.handle_action (s : SearchBoxComponent)
    (action : Action) (text_area : TextArea) :
    SearchBoxComponent × TextArea × ActionResult :=
  if !s.visible then (s, text_area, ActionResult.not_consumed false)
  else
    match action with
    | .Down =>
        let (ta, found) := text_area.search_forward
        (s, ta, ActionResult.consumed found)
    | .Up =>
        let (ta, found) := text_area.search_back
        (s, ta, ActionResult.consumed found)
    | _ =>
        let (s, res, update_search) := s.receive_action action
        if res.is_consumed && update_search then
          let (s, ta) := s.apply_search_pattern text_area
          (s, ta, res)
        else (s, text_area, res)

/-! ## Preview pane (`src/component/file_selector/preview_component.rs`)

The background read task (spawn/abort slot) produces `PreviewContents`
async actions; the task handle itself is outside the claims and not
tracked. -/

structure PreviewComponent where
  path_buf : String
  contents : Option String
  lines : Nat
  visible : Bool
deriving DecidableEq

def PreviewComponent.empty : PreviewComponent :=
  { path_buf := "", contents := none, lines := 0, visible := true }

def PreviewComponent.change_dir (p : PreviewComponent) (dir : Option String) :
    PreviewComponent :=
  let p := match dir with
    | some d => { p with path_buf := d }
    | none => p
  { p with contents := none }

def PreviewComponent.reload (p : PreviewComponent) : PreviewComponent :=
  { p with contents := none }

def PreviewComponent.handle_action (p : PreviewComponent) (action : Action) :
    PreviewComponent × ActionResult :=
  match action with
  | .TogglePreview => ({ p with visible := !p.visible }, ActionResult.consumed true)
  | .ReloadPreview => (p.reload, ActionResult.consumed true)
  | .Resize => (p.reload, ActionResult.not_consumed true)
  | _ => (p, ActionResult.defaultResult)

def PreviewComponent.handle_async_action (p : PreviewComponent)
    (action : AsyncAction) : PreviewComponent × ActionResult :=
  match action with
  | .PreviewContents contents =>
      ({ p with contents := contents }, ActionResult.consumed true)
  | _ => (p, ActionResult.defaultResult)

/-! ## File-selector input (`src/component/file_selector/input.rs`) -/

structure FileSelectorInput where
  text_area : Option TextArea
  filter : Option TextArea
  selector_type : SelectorType
deriving DecidableEq

def FileSelectorInput.empty : FileSelectorInput :=
  { text_area := none, filter := none, selector_type := SelectorType.PickFile }

def FileSelectorInput.change_type (i : FileSelectorInput)
    (selector_type : SelectorType) : FileSelectorInput :=
  match selector_type with
  | .PickFolder | .PickFile =>
      { i with selector_type := selector_type, filter := some TextArea.empty }
  | .NewFile =>
      { i with selector_type := selector_type, text_area := some TextArea.empty }

def FileSelectorInput.clear (i : FileSelectorInput) : FileSelectorInput :=
  { i with filter := none, text_area := none }

def FileSelectorInput.current_filter (i : FileSelectorInput) : Option String :=
  match i.filter with
  | some f => if f.text ≠ "" then some f.text else none
  | none => none

def FileSelectorInput.current_text_area (i : FileSelectorInput) :
    Option String :=
  match i.text_area with
  | some f => if f.text ≠ "" then some f.text else none
  | none => none

def FileSelectorInput.delete (i : FileSelectorInput) :
    FileSelectorInput × ActionResult :=
  match i.text_area with
  | some ta =>
      let (ta, deleted) := ta.delete_next_char
      ({ i with text_area := some ta }, ActionResult.consumed deleted)
  | none =>
      match i.filter with
      | some ta =>
          let (ta, deleted) := ta.delete_next_char
          ({ i with filter := some ta }, ActionResult.consumed deleted)
      | none => (i, ActionResult.defaultResult)

def FileSelectorInput.backspace (i : FileSelectorInput) :
    FileSelectorInput × Bool :=
  match i.text_area with
  | some ta =>
      let (ta, deleted) := ta.delete_char
      ({ i with text_area := some ta }, deleted)
  | none =>
      match i.filter with
      | some ta =>
          let (ta, deleted) := ta.delete_char
          ({ i with filter := some ta }, deleted)
      | none => (i, false)

def FileSelectorInput.filter_active (i : FileSelectorInput) : Bool :=
  i.filter.isSome

/-- `handle_character`: returns true when the file-name input consumed
the character (the filter input reports false). -/
def FileSelectorInput.handle_character (i : FileSelectorInput) (c : Char) :
    FileSelectorInput × Bool :=
  match i.text_area with
  | some ta => ({ i with text_area := some (ta.insert_char c) }, true)
  | none =>
      match i.filter with
      | some ta => ({ i with filter := some (ta.insert_char c) }, false)
      | none => (i, false)

def FileSelectorInput.move_cursor (i : FileSelectorInput) (m : CursorMove) :
    FileSelectorInput :=
  match i.filter with
  | some ta => { i with filter := some (ta.move_cursor m) }
  | none =>
      match i.text_area with
      | some ta => { i with text_area := some (ta.move_cursor m) }
      | none => i

def FileSelectorInput.toggle_filter (i : FileSelectorInput) :
    FileSelectorInput × ActionResult :=
  if i.selector_type = SelectorType.PickFolder then
    (i, ActionResult.not_consumed false)
  else
    ({ i with filter := some TextArea.empty }, ActionResult.consumed true)

def FileSelectorInput.cancel (i : FileSelectorInput) :
    FileSelectorInput × Bool :=
  if i.selector_type = SelectorType.NewFile && i.filter.isSome then
    ({ i with filter := none }, true)
  else (i, false)

/-! ## File-selector dialog (`src/component/file_selector/component.rs`
and `PathChild` from its `mod.rs`) -/

inductive PathChild where
  | File (full_file_name extension : String)
  | Folder (name : String)
  | MoveUp
deriving DecidableEq

/-- Case-sensitive substring test used to model Rust's
`str::contains`. -/
def strContainsSubstr (s pat : String) : Bool :=
  pat = "" || (s.splitOn pat).length ≥ 2

/-- `PathChild::filter` (case-insensitive substring match; the filter
string was lower-cased by the caller). -/
def PathChild.filterMatch (c : PathChild) (filter : String) : Bool :=
  match c with
  | .File full_file_name _ => strContainsSubstr full_file_name.toLower filter
  | .Folder f => strContainsSubstr f.toLower filter
  | .MoveUp => true

def lastComponent (p : String) : String :=
  ((p.splitOn "/").getLast?).getD ""

/-- `Path::extension` of a path string: text after the last dot of the
file name, empty when there is none. -/
def pathExtension (p : String) : String :=
  let name := lastComponent p
  let parts := name.splitOn "."
  if parts.length ≥ 2 then parts.getLastD "" else ""

/-- Directory listing (`read_dir`): the paths whose parent is `dir`,
directories first then files, each with its is-directory flag.  The OS
iteration order is unspecified; the model fixes the `FileSys` list
order. -/
def FileSys.readDirEntries (fs : FileSys) (dir : String) :
    List (String × Bool) :=
  let subdirs := fs.dirs.filter (fun p => parentPath p = dir && p ≠ dir)
  let files := (fs.files.map (fun q => q.1)).filter (fun p => parentPath p = dir)
  subdirs.map (fun p => (p, true)) ++ files.map (fun p => (p, false))

structure FileSelectorComponent where
  current_path : String
  children : List PathChild
  filtered_paths : Option (List PathChild)
  input : FileSelectorInput
  visible : Bool
  list_state : Option Nat
  preview_component : PreviewComponent
deriving DecidableEq

def FileSelectorComponent.empty : FileSelectorComponent :=
  { current_path := "", children := [], filtered_paths := none,
    input := FileSelectorInput.empty, visible := false, list_state := none,
    preview_component := PreviewComponent.empty }

def FileSelectorComponent.refresh_filtered_items (s : FileSelectorComponent) :
    FileSelectorComponent × ActionResult :=
  let s := { s with filtered_paths := none }
  match s.input.current_filter with
  | none => (s, ActionResult.consumed false)
  | some filter =>
      let filter := filter.toLower
      ({ s with filtered_paths :=
            some (s.children.filter (fun c => c.filterMatch filter)) },
        ActionResult.consumed true)

/-- `select_dir`: re-lists a directory (no-op when `read_dir` fails,
i.e. when `dir` is not a directory of the filesystem), always prepending
the `MoveUp` entry; files are listed only when the selector type shows
files. -/
def FileSelectorComponent.select_dir (fs : FileSys)
    (s : FileSelectorComponent) (dir : String) : FileSelectorComponent :=
  if !fs.is_dir dir then s
  else
    let s := { s with
      preview_component := s.preview_component.change_dir none
      list_state := none
      current_path := dir }
    let entries := fs.readDirEntries dir
    let children := entries.foldl (fun acc e =>
      let name := lastComponent e.1
      if e.2 then acc ++ [PathChild.Folder name]
      else if s.input.selector_type.show_files then
        acc ++ [PathChild.File name (pathExtension e.1)]
      else acc) [PathChild.MoveUp]
    ((FileSelectorComponent.refresh_filtered_items
        { s with children := children })).1

def FileSelectorComponent.show (fs : FileSys) (s : FileSelectorComponent)
    (dir : String) (selector_type : SelectorType) : FileSelectorComponent :=
  let s := { s with input := s.input.change_type selector_type, visible := true }
  s.select_dir fs dir

def FileSelectorComponent.hide (s : FileSelectorComponent) :
    FileSelectorComponent :=
  { s with visible := false, input := s.input.clear, list_state := none }

def FileSelectorComponent.child_path (s : FileSelectorComponent)
    (index : Nat) : Option String :=
  match s.children.get? index with
  | some (PathChild.File full_file_name _) =>
      some (s.current_path ++ "/" ++ full_file_name)
  | some (PathChild.Folder f) => some (s.current_path ++ "/" ++ f)
  | some PathChild.MoveUp => none
  | none => none

def FileSelectorComponent.active_list (s : FileSelectorComponent) :
    List PathChild :=
  s.filtered_paths.getD s.children

def FileSelectorComponent.update_preview (s : FileSelectorComponent)
    (index : Nat) : FileSelectorComponent :=
  { s with preview_component :=
      s.preview_component.change_dir (s.child_path index) }

/-- `select`: with no list selection, emits the typed (or current) path;
selecting a folder descends unless the selector type allows picking
folders; otherwise hides the dialog and emits `SelectPath`. -/
def FileSelectorComponent.select (fs : FileSys) (s : FileSelectorComponent)
    (folder : Bool) : FileSelectorComponent × ActionResult × List AsyncAction :=
  match s.list_state with
  | none =>
      let path := match s.input.current_text_area with
        | some text => s.current_path ++ "/" ++ text
        | none => s.current_path
      (s, ActionResult.consumed true,
        [AsyncAction.SelectPath path s.input.selector_type])
  | some index =>
      match s.children.get? index with
      | none => (s, ActionResult.consumed false, [])
      | some child =>
          let can_pick_folder := folder && s.input.selector_type.can_pick_folder
          match child with
          | PathChild.File full_file_name _ =>
              let path := s.current_path ++ "/" ++ full_file_name
              (s.hide, ActionResult.consumed true,
                [AsyncAction.SelectPath path s.input.selector_type])
          | PathChild.Folder f =>
              let path := s.current_path ++ "/" ++ f
              if !can_pick_folder then
                (s.select_dir fs path, ActionResult.consumed true, [])
              else
                (s.hide, ActionResult.consumed true,
                  [AsyncAction.SelectPath path s.input.selector_type])
          | PathChild.MoveUp =>
              (s.select_dir fs (parentPath s.current_path),
                ActionResult.consumed true, [])

def FileSelectorComponent.handle_character (s : FileSelectorComponent)
    (c : Char) : FileSelectorComponent × ActionResult :=
  let (input, changed) := s.input.handle_character c
  let s := { s with input := input }
  if changed then ((s.refresh_filtered_items).1, ActionResult.consumed true)
  else (s, ActionResult.defaultResult)

def FileSelectorComponent.handle_backspace (s : FileSelectorComponent) :
    FileSelectorComponent × ActionResult :=
  let (input, changed) := s.input.backspace
  let s := { s with input := input }
  if changed then ((s.refresh_filtered_items).1, ActionResult.consumed true)
  else (s, ActionResult.defaultResult)

def FileSelectorComponent.handle_delete (s : FileSelectorComponent) :
    FileSelectorComponent × ActionResult :=
  let (input, res) := s.input.delete
  let s := { s with input := input }
  if res.is_consumed then ((s.refresh_filtered_items).1, ActionResult.consumed true)
  else (s, ActionResult.defaultResult)

def FileSelectorComponent.move_cursor_up (s : FileSelectorComponent) :
    FileSelectorComponent × ActionResult :=
  match s.list_state with
  | some index =>
      if index = 0 then (s, ActionResult.consumed false)
      else
        let i := index - 1
        let s := s.update_preview i
        ({ s with list_state := some i }, ActionResult.consumed true)
  | none =>
      let len := s.active_list.length
      if len > 0 then
        let i := len - 1
        let s := s.update_preview i
        ({ s with list_state := some i }, ActionResult.consumed true)
      else (s, ActionResult.defaultResult)

def FileSelectorComponent.move_cursor_down (s : FileSelectorComponent) :
    FileSelectorComponent × ActionResult :=
  let len := s.active_list.length
  match s.list_state with
  | some index =>
      if index = len - 1 then (s, ActionResult.consumed false)
      else
        let i := index + 1
        let s := s.update_preview i
        ({ s with list_state := some i }, ActionResult.consumed true)
  | none =>
      if len > 0 then
        let s := s.update_preview 0
        ({ s with list_state := some 0 }, ActionResult.consumed true)
      else (s, ActionResult.defaultResult)

/-- `handle_cancel`: three-stage unwind — clear the filter, then the list
selection, then hide. -/
def FileSelectorComponent.handle_cancel (s : FileSelectorComponent) :
    FileSelectorComponent × ActionResult :=
  let (input, cleared) := s.input.cancel
  let s := { s with input := input }
  if cleared then ((s.refresh_filtered_items).1, ActionResult.consumed true)
  else if s.list_state.isSome then
    ({ s with preview_component := s.preview_component.change_dir none,
              list_state := none }, ActionResult.consumed true)
  else (s.hide, ActionResult.consumed true)

def FileSelectorComponent.handle_action (fs : FileSys)
    (s : FileSelectorComponent) (action : Action) :
    FileSelectorComponent × ActionResult × List AsyncAction :=
  if !s.visible then (s, ActionResult.defaultResult, [])
  else
    let (preview, p) := s.preview_component.handle_action action
    let s := { s with preview_component := preview }
    if p.is_consumed then (s, p, [])
    else
      match action with
      | .Up => let (s, r) := s.move_cursor_up; (s, r, [])
      | .Down => let (s, r) := s.move_cursor_down; (s, r, [])
      | .Left =>
          ({ s with input := s.input.move_cursor .Back },
            ActionResult.consumed true, [])
      | .Right =>
          ({ s with input := s.input.move_cursor .Forward },
            ActionResult.consumed true, [])
      | .Confirm => s.select fs false
      | .Select => s.select fs true
      | .Cancel => let (s, r) := s.handle_cancel; (s, r, [])
      | .Backspace => let (s, r) := s.handle_backspace; (s, r, [])
      | .Search => let (input, r) := s.input.toggle_filter
                   ({ s with input := input }, r, [])
      | .Delete => let (s, r) := s.handle_delete; (s, r, [])
      | .Character c => let (s, r) := s.handle_character c; (s, r, [])
      | _ => (s, ActionResult.defaultResult, [])

def FileSelectorComponent.handle_async_action (s : FileSelectorComponent)
    (action : AsyncAction) : FileSelectorComponent × ActionResult :=
  let (preview, r) := s.preview_component.handle_async_action action
  ({ s with preview_component := preview }, r)

/-! ## Editor component (`src/component/editor/component.rs`)

Handlers return the new editor state, the `ActionResult`, the `Action`s
sent on the action channel (by the confirm dialog), the `AsyncAction`s
sent on the async channel, the spawned background write tasks (to be run
against a `FileSys` via `write_file`) and whether a background file load
was spawned.  The filesystem the component reads synchronously
(`current_directory`, the selector's `read_dir`) is the explicit `fs`
argument. -/

structure WriteTask where
  path : String
  lines : String
  overwrite : Bool
deriving DecidableEq

structure EditorComponent where
  buffer : Buffer
  loading : Bool
  saving_file : Bool
  insert : Bool
  notification : NotificationComponent
  help_component : HelpComponent
  file_dialog : FileSelectorComponent
  confirm_dialog_component : ConfirmDialogComponent
  search_box_component : SearchBoxComponent
deriving DecidableEq

structure EditorOut where
  editor : EditorComponent
  result : ActionResult
  sentActions : List Action
  sentAsync : List AsyncAction
  spawnedWrites : List WriteTask
  spawnedLoad : Bool
deriving DecidableEq

/-- Plain outcome with no sends and no spawned tasks. -/
def EditorOut.plain (e : EditorComponent) (r : ActionResult) : EditorOut :=
  { editor := e, result := r, sentActions := [], sentAsync := [],
    spawnedWrites := [], spawnedLoad := false }

def EditorComponent.empty : EditorComponent :=
  { buffer := Buffer.new none, loading := false, saving_file := false,
    insert := false, notification := { notification := none },
    help_component := HelpComponent.empty,
    file_dialog := FileSelectorComponent.empty,
    confirm_dialog_component := ConfirmDialogComponent.empty,
    search_box_component := SearchBoxComponent.empty }

/-- `EditorComponent::new(file)`. -/
def EditorComponent.new (file : String) : EditorComponent :=
  { EditorComponent.empty with buffer := Buffer.new (some file) }

/-- `load_file`: spawns a background read when the buffer has a path. -/
def EditorComponent.load_file (e : EditorComponent) :
    EditorComponent × Bool :=
  match e.buffer.file_path with
  | none => (e, false)
  | some _ => ({ e with loading := true }, true)

/-- `save_file_at`: records the path on the buffer (which also clears the
modified flag), hides the file dialog, raises the saving flag and spawns
the background `write_file` task. -/
def EditorComponent.save_file_at (e : EditorComponent)
    (path : String) (overwrite : Bool) : EditorOut :=
  let buffer := e.buffer.change_path path
  let lines := buffer.text_area.text
  let e := { e with buffer := buffer, saving_file := true,
                    file_dialog := e.file_dialog.hide }
  { EditorOut.plain e (ActionResult.consumed true) with
      spawnedWrites := [{ path := path, lines := lines, overwrite := overwrite }] }

def EditorComponent.open_file_dialog (fs : FileSys) (e : EditorComponent)
    (selector_type : SelectorType) : EditorOut :=
  let dir := e.buffer.current_directory fs
  EditorOut.plain
    { e with file_dialog :=
        FileSelectorComponent.show fs e.file_dialog dir selector_type }
    (ActionResult.consumed true)

/-- `handle_selector`: reaction to a `SelectPath` async action. -/
def EditorComponent.handle_selector (e : EditorComponent)
    (path : String) (selector_type : SelectorType) : EditorOut :=
  match selector_type with
  | .PickFolder => e.save_file_at path true
  | .NewFile => e.save_file_at path false
  | .PickFile =>
      let e := { e with buffer := e.buffer.change_path path }
      let (e, spawned) := e.load_file
      { EditorOut.plain e (ActionResult.consumed true) with
          spawnedLoad := spawned }

def EditorComponent.handle_save_file (fs : FileSys) (e : EditorComponent) :
    EditorOut :=
  if !e.buffer.modified && e.buffer.file_path.isSome then
    EditorOut.plain e (ActionResult.not_consumed false)
  else
    match e.buffer.file_path with
    | none => e.open_file_dialog fs SelectorType.NewFile
    | some path => e.save_file_at path true

def EditorComponent.handle_save_to (fs : FileSys) (e : EditorComponent) :
    EditorOut :=
  e.open_file_dialog fs SelectorType.NewFile

def EditorComponent.start_selection (e : EditorComponent) : EditorComponent :=
  if !e.buffer.text_area.is_selecting then
    { e with buffer :=
        { e.buffer with text_area := e.buffer.text_area.start_selection } }
  else e

def EditorComponent.stop_selection (e : EditorComponent) : EditorComponent :=
  { e with buffer :=
      { e.buffer with text_area := e.buffer.text_area.cancel_selection } }

def EditorComponent.move_cursor (e : EditorComponent) (m : CursorMove) :
    EditorOut :=
  EditorOut.plain
    { e with buffer :=
        { e.buffer with text_area := e.buffer.text_area.move_cursor m } }
    (ActionResult.consumed true)

def EditorComponent.delete (e : EditorComponent) : EditorOut :=
  let (ta, deleted) := e.buffer.text_area.delete_next_char
  let e := { e with buffer := { e.buffer with text_area := ta } }
  if deleted then EditorOut.plain e (ActionResult.consumed true)
  else EditorOut.plain e (ActionResult.not_consumed false)

def EditorComponent.cut_selection (e : EditorComponent) : EditorOut :=
  let ta := e.buffer.text_area.cut
  let yanked := ta.yank_text
  let e := ({ e with buffer := { e.buffer with text_area := ta } }).stop_selection
  if yanked = "" then EditorOut.plain e (ActionResult.Consumed true)
  else
    let (buffer, r) := e.buffer.push_to_clipboard yanked
    let e := { e with buffer := buffer }
    let e := match r with
      | Except.ok _ => { e with notification := e.notification.notify_text "Cut" }
      | Except.error msg =>
          { e with notification := e.notification.notify_error msg }
    EditorOut.plain e (ActionResult.consumed true)

def EditorComponent.add_char (e : EditorComponent) (c : Char) : EditorOut :=
  let ta := e.buffer.text_area
  let ta :=
    if ta.is_selecting then
      let previous_yank := ta.yank_text
      (ta.cut.cancel_selection).set_yank_text previous_yank
    else ta
  let ta := ta.insert_char c
  EditorOut.plain
    { e with buffer := { e.buffer with text_area := ta, modified := true } }
    (ActionResult.consumed true)

def EditorComponent.backspace (e : EditorComponent) : EditorOut :=
  let (ta, _) := e.buffer.text_area.delete_char
  EditorOut.plain
    { e with buffer := { e.buffer with text_area := ta, modified := true } }
    (ActionResult.consumed true)

def EditorComponent.new_line (e : EditorComponent) : EditorOut :=
  EditorOut.plain
    { e with buffer :=
        { e.buffer with text_area := e.buffer.text_area.insert_newline,
                        modified := true } }
    (ActionResult.consumed true)

def EditorComponent.tab (e : EditorComponent) : EditorOut :=
  EditorOut.plain
    { e with buffer :=
        { e.buffer with text_area := e.buffer.text_area.insert_tab,
                        modified := true } }
    (ActionResult.consumed true)

def EditorComponent.load_file_contents (e : EditorComponent)
    (contents : String) : EditorOut :=
  let buffer := e.buffer.clear_text
  let (ta, _) := buffer.text_area.insert_str contents
  let ta := ta.cancel_selection
  EditorOut.plain
    { e with loading := false, buffer := { buffer with text_area := ta } }
    (ActionResult.consumed true)

def EditorComponent.begin_insert_mode (e : EditorComponent) : EditorOut :=
  EditorOut.plain { e with insert := true } (ActionResult.consumed true)

def EditorComponent.copy_selection (e : EditorComponent) : EditorOut :=
  let ta := e.buffer.text_area.copy
  let yanked := ta.yank_text
  let e := { e with buffer := { e.buffer with text_area := ta } }
  if yanked = "" then EditorOut.plain e (ActionResult.consumed false)
  else
    let (buffer, r) := e.buffer.push_to_clipboard yanked
    let e := { e with buffer := buffer }
    let e := match r with
      | Except.error msg =>
          { e with notification := e.notification.notify_error msg }
      | Except.ok _ =>
          { e with notification := e.notification.notify_text "Copied" }
    EditorOut.plain e (ActionResult.consumed true)

def EditorComponent.paste_text (e : EditorComponent) (text : String) :
    EditorOut :=
  let (ta, changed) := e.buffer.text_area.insert_str text
  EditorOut.plain { e with buffer := { e.buffer with text_area := ta } }
    (ActionResult.consumed changed)

def EditorComponent.paste_text_from_clipboard (e : EditorComponent) :
    EditorOut :=
  match e.buffer.get_from_clipboard with
  | none => EditorOut.plain e (ActionResult.consumed false)
  | some contents => e.paste_text contents

def EditorComponent.select_all (e : EditorComponent) : EditorOut :=
  EditorOut.plain
    { e with buffer :=
        { e.buffer with text_area := e.buffer.text_area.select_all } }
    (ActionResult.consumed true)

def EditorComponent.show_confirm_overwrite (e : EditorComponent) : EditorOut :=
  EditorOut.plain
    { e with confirm_dialog_component :=
        (ConfirmDialogComponent.show e.confirm_dialog_component
          " File already exists "
          "Are you sure you want to overwrite it?" Action.Save) }
    (ActionResult.consumed true)

/-- `handle_file_saved`: exhaustive reaction to a `SaveFileResult`,
guarded by the saving flag. -/
def EditorComponent.handle_file_saved (fs : FileSys) (e : EditorComponent)
    (result : SaveFileResult) : EditorOut :=
  if e.saving_file then
    let e := { e with saving_file := false }
    match result with
    | .Saved path =>
        let e := { e with notification := e.notification.notify_text "File saved" }
        let e := { e with buffer :=
            { e.buffer.change_path path with modified := false } }
        EditorOut.plain e (ActionResult.consumed true)
    | .Error error =>
        EditorOut.plain
          { e with notification := e.notification.notify_error error }
          (ActionResult.consumed true)
    | .MissingName => e.open_file_dialog fs SelectorType.NewFile
    | .ConfirmOverwrite => e.show_confirm_overwrite
  else EditorOut.plain e ActionResult.defaultResult

def EditorComponent.page_up (e : EditorComponent) : EditorOut :=
  e.move_cursor CursorMove.Top

def EditorComponent.page_down (e : EditorComponent) : EditorOut :=
  e.move_cursor CursorMove.Down

def EditorComponent.move_next_word (e : EditorComponent) : EditorOut :=
  e.move_cursor CursorMove.WordForward

def EditorComponent.move_previous_word (e : EditorComponent) : EditorOut :=
  e.move_cursor CursorMove.WordBack

def EditorComponent.toggle_line_number (e : EditorComponent) : EditorOut :=
  let ta := e.buffer.text_area
  let ta := { ta with lineNumbers := !ta.lineNumbers }
  EditorOut.plain { e with buffer := { e.buffer with text_area := ta } }
    (ActionResult.consumed true)

def EditorComponent.begin_search (e : EditorComponent) : EditorOut :=
  EditorOut.plain
    { e with search_box_component := e.search_box_component.toggle }
    (ActionResult.consumed true)

/-- `child_handle_action`: routes the action through the overlay widgets
in the fixed priority order — notification, confirm dialog, file dialog,
search box (which may touch the buffer's text area), help — stopping at
the first consumption. -/
def EditorComponent.child_handle_action (fs : FileSys) (e : EditorComponent)
    (action : Action) : EditorComponent × ActionResult × List Action :=
  let (notification, res) := e.notification.handle_action_ref action
  let e := { e with notification := notification }
  if res.is_consumed then (e, res, [])
  else
    let (confirm, res, sent) :=
      e.confirm_dialog_component.handle_action action
    let e := { e with confirm_dialog_component := confirm }
    if res.is_consumed then (e, res, sent)
    else
      let (dialog, res, _sentAsync) := FileSelectorComponent.handle_action fs
        e.file_dialog action
      let e := { e with file_dialog := dialog }
      if res.is_consumed then (e, res, [])
      else
        let (search, ta, res) := e.search_box_component.handle_action action
          e.buffer.text_area
        let e := { e with search_box_component := search,
                          buffer := { e.buffer with text_area := ta } }
        if res.is_consumed then (e, res, [])
        else
          let (help, res) := e.help_component.handle_action action
          let e := { e with help_component := help }
          if res.is_consumed then (e, res, [])
          else (e, ActionResult.not_consumed false, [])

/-- `EditorComponent::handle_action`. -/
def EditorComponent.handle_action (fs : FileSys) (e : EditorComponent)
    (action : Action) : EditorOut :=
  let (e, child, sent) := e.child_handle_action fs action
  if child.is_consumed then
    { EditorOut.plain e child with sentActions := sent }
  else
    match action with
    | .Tick =>
        let (notification, r) := e.notification.handle_tick_action
        EditorOut.plain { e with notification := notification } r
    | .Character c => e.add_char c
    | .Backspace => e.backspace
    | .NewLine => e.new_line
    | .Tab => e.tab
    | .Delete => e.delete
    | .Insert => e.begin_insert_mode
    | .Left => (e.stop_selection).move_cursor CursorMove.Back
    | .SelectLeft => (e.start_selection).move_cursor CursorMove.Back
    | .Right => (e.stop_selection).move_cursor CursorMove.Forward
    | .SelectRight => (e.start_selection).move_cursor CursorMove.Forward
    | .Up => (e.stop_selection).move_cursor CursorMove.Up
    | .SelectUp => (e.start_selection).move_cursor CursorMove.Up
    | .Down => (e.stop_selection).move_cursor CursorMove.Down
    | .SelectDown => (e.start_selection).move_cursor CursorMove.Down
    | .Cancel =>
        if e.buffer.text_area.is_selecting then
          EditorOut.plain
            { e with buffer := { e.buffer with
                text_area := e.buffer.text_area.cancel_selection } }
            (ActionResult.consumed true)
        else if e.insert then
          EditorOut.plain { e with insert := false } (ActionResult.consumed true)
        else EditorOut.plain e ActionResult.defaultResult
    | .Search => e.begin_search
    | .Copy => e.copy_selection
    | .Paste => e.paste_text_from_clipboard
    | .PasteText text => e.paste_text text
    | .Cut => e.cut_selection
    | .SelectAll => e.select_all
    | .Save => e.handle_save_file fs
    | .SaveTo => e.handle_save_to fs
    | .Redo =>
        let (ta, changed) := e.buffer.text_area.redo
        let e := { e with buffer := { e.buffer with text_area := ta } }
        if changed then EditorOut.plain e (ActionResult.consumed true)
        else EditorOut.plain e ActionResult.defaultResult
    | .Undo =>
        let (ta, changed) := e.buffer.text_area.undo
        let e := { e with buffer := { e.buffer with text_area := ta } }
        if changed then EditorOut.plain e (ActionResult.consumed true)
        else EditorOut.plain e ActionResult.defaultResult
    | .Return =>
        { EditorOut.plain e ActionResult.defaultResult with
            sentAsync := [AsyncAction.Navigate none] }
    | .OpenFile => e.open_file_dialog fs SelectorType.PickFile
    | .PageUp => e.page_up
    | .PageDown => e.page_down
    | .EndOfWord => e.move_next_word
    | .StartOfWord => e.move_previous_word
    | .ToggleLineNumber => e.toggle_line_number
    | _ => EditorOut.plain e ActionResult.defaultResult

/-- `EditorComponent::handle_async_action`. -/
def EditorComponent.handle_async_action (fs : FileSys) (e : EditorComponent)
    (action : AsyncAction) : EditorOut :=
  let (dialog, f) := e.file_dialog.handle_async_action action
  let e := { e with file_dialog := dialog }
  if f.is_consumed then EditorOut.plain e f
  else
    match action with
    | .LoadFileContents s => e.load_file_contents s
    | .SavedFile result => e.handle_file_saved fs result
    | .Error msg =>
        EditorOut.plain
          { e with notification := e.notification.notify_error msg }
          (ActionResult.consumed true)
    | .SelectPath path selector => e.handle_selector path selector
    | _ => EditorOut.plain e ActionResult.defaultResult

/-! ## Navigator (`src/component/navigator.rs`)

The boxed active component's internal state is the Editor/Home model and
is not needed by the navigator claims; the model tracks the screen
identity (`current_component`), the back pointer (`previous_component`),
the pending transition target (`transitioning`) and the effect runner's
running flag.  The `constructions` and `teardowns` counters instrument
the two places where the source constructs (`Self::map_component`) and
tears down (`self.component.exit()`) the active component, both inside
`start_enter_screen_transition`.  The tachyonfx effect timing is
abstracted: `render` receives the oracle "did the pending effects finish
during this frame" (the value `EffectRunner::process` computes from real
elapsed time).  The decorative StartAnimation/StopAnimation channel
traffic of the effect runner is not tracked. -/

structure NavigatorComponent where
  current_component : AppComponent
  previous_component : Option AppComponent
  transitioning : Option AppComponent
  effect_running : Bool
  has_action_sender : Bool
  constructions : Nat
  teardowns : Nat
deriving DecidableEq

/-- `Self::map_component`: the screen identity actually recorded for a
requested target (total; unmapped variants default to Home). -/
def NavigatorComponent.map_component : AppComponent → AppComponent
  | .OpenedEditor _ => AppComponent.Editor
  | .Editor => AppComponent.Editor
  | _ => AppComponent.HomeScreen

/-- `new_with_starting_component` (one construction via
`map_component`). -/
def NavigatorComponent.new_with_starting_component (c : AppComponent)
    (has_sender : Bool) : NavigatorComponent :=
  { current_component := NavigatorComponent.map_component c
    previous_component := none
    transitioning := none
    effect_running := false
    has_action_sender := has_sender
    constructions := 1
    teardowns := 0 }

/-- `start_leave_screen_transition`: queue the leave effect and buffer
the pending target. -/
def NavigatorComponent.start_leave_screen_transition (n : NavigatorComponent)
    (c : AppComponent) : NavigatorComponent :=
  { n with effect_running := true, transitioning := some c }

/-- `navigate`: no-op when the target equals the current screen. -/
def NavigatorComponent.navigate (n : NavigatorComponent) (c : AppComponent) :
    NavigatorComponent :=
  if n.current_component ≠ c then n.start_leave_screen_transition c else n

/-- `return_last_component`. -/
def NavigatorComponent.return_last_component (n : NavigatorComponent) :
    NavigatorComponent × Bool :=
  match n.previous_component with
  | some previous =>
      (({ n with previous_component := none
        }).start_leave_screen_transition previous, true)
  | none =>
      if n.current_component ≠ AppComponent.HomeScreen then
        (n.start_leave_screen_transition AppComponent.HomeScreen, true)
      else (n, false)

/-- `start_enter_screen_transition`: when a transition target is pending,
queue the enter effect, tear the old component down, construct the new
one and record its screen identity. -/
def NavigatorComponent.start_enter_screen_transition (n : NavigatorComponent) :
    NavigatorComponent :=
  match n.transitioning with
  | none => n
  | some c =>
      { n with
          transitioning := none
          effect_running := true
          teardowns := n.teardowns + 1
          current_component := NavigatorComponent.map_component c
          constructions := n.constructions + 1 }

/-- The transition-relevant part of `render`: `effect_runner.process`
reports just-finished (when effects were running and the oracle says they
finished this frame), in which case the deferred swap runs. -/
def NavigatorComponent.render (finished : Bool) (n : NavigatorComponent) :
    NavigatorComponent :=
  if n.effect_running && finished then
    ({ n with effect_running := false }).start_enter_screen_transition
  else n

/-- The `AsyncAction::Navigate` arm of
`NavigatorComponent::handle_async_action` (other async actions are
delegated to the active child component, outside these claims).  Returns
the new state, the `ActionResult` and the `Action`s enqueued on the
action channel. -/
def NavigatorComponent.handle_async_navigate (n : NavigatorComponent)
    (comp : Option AppComponent) :
    NavigatorComponent × ActionResult × List Action :=
  match comp with
  | some component => (n.navigate component, ActionResult.consumed true, [])
  | none =>
      let (n, returned) := n.return_last_component
      if !returned && n.has_action_sender then
        (n, ActionResult.consumed false, [Action.Quit])
      else (n, ActionResult.consumed true, [])

/-- The navigator-state events of the claims. -/
inductive NavEvent where
  | navigate (c : AppComponent)
  | return_last
  | render (finished : Bool)
  | async_navigate (c : Option AppComponent)
deriving DecidableEq

def NavigatorComponent.step (e : NavEvent) (n : NavigatorComponent) :
    NavigatorComponent :=
  match e with
  | .navigate c => n.navigate c
  | .return_last => (n.return_last_component).1
  | .render finished => n.render finished
  | .async_navigate c => (n.handle_async_navigate c).1

/-! ## File-history saver
(`src/component/file_selector/file_history_saver.rs`)

`current` and `new` are Rust `HashSet<PathBuf>`s.  A hash set is a set
with an unspecified iteration order; the model keeps each as a duplicate-
free list whose order merely witnesses one admissible iteration order,
and `save_new_files` is therefore specified as a relation: an output file
is admissible iff it is some permutation of `new` followed by some
permutation of `current` (the source writes all of `new`, then all of
`current`, one path per line). -/

structure FileHistorySaver where
  data_file_dir : String
  current : List String
  new : List String
deriving DecidableEq

/-- The state after `load_from_data_dir` kept the existing on-disk paths
(`current₀`); `new` starts empty. -/
def FileHistorySaver.loaded (dir : String) (current : List String) :
    FileHistorySaver :=
  { data_file_dir := dir, current := current, new := [] }

/-- `push_to_history`: removes the path from `current` and inserts it
into `new`. -/
def FileHistorySaver.push_to_history (s : FileHistorySaver) (file : String) :
    FileHistorySaver :=
  { s with
      current := s.current.filter (fun p => p ≠ file)
      new := if file ∈ s.new then s.new else s.new ++ [file] }

def FileHistorySaver.awaiting_write (s : FileHistorySaver) : Bool :=
  s.new ≠ []

/-- Admissible line lists written by `save_new_files` (run on drop): the
iterated `new` set, then the iterated `current` set, each in an arbitrary
iteration order. -/
def FileHistorySaver.admissible_output (s : FileHistorySaver)
    (out : List String) : Prop :=
  ∃ n c, n.Perm s.new ∧ c.Perm s.current ∧ out = n ++ c

/-! ## App event loop (`src/app.rs`)

The active component tree is an arbitrary state type `σ` with handler
functions (`CompModel`); the unbounded channels are lists (receive at the
head, send at the tail).  `Event::Key` carries the action the keybinding
table resolves the key to (or `none` when it resolves to nothing), since
config lookup is outside the loop claims.  Each processed item is
recorded in a trace. -/

structure CompModel (σ : Type) where
  handle_action : σ → Action → σ × ActionResult × List Action × List AsyncAction
  handle_async_action :
    σ → AsyncAction → σ × ActionResult × List Action × List AsyncAction
  handle_mouse_event : σ → σ × ActionResult

inductive Event where
  | Init
  | Quit
  | Tick
  | Render
  | Mouse
  | Key (resolved : Option Action)
  | Paste (s : String)
  | Error (msg : String)
  | Resize
deriving DecidableEq

structure AppState (σ : Type) where
  should_quit : Bool
  should_rerender : Bool
  action_queue : List Action
  async_queue : List AsyncAction
  comp : σ
  frames_drawn : Nat

inductive Processed where
  | ev (e : Event)
  | act (a : Action)
  | async (b : AsyncAction)
deriving DecidableEq

def Processed.isAct : Processed → Bool
  | .act _ => true
  | _ => false

def Processed.isAsync : Processed → Bool
  | .async _ => true
  | _ => false

/-- `flag_for_rerender_if_asked`. -/
def AppState.flag_for_rerender {σ : Type} (st : AppState σ)
    (r : ActionResult) : AppState σ :=
  if !st.should_rerender && r.should_rerender then
    { st with should_rerender := true }
  else st

/-- `render`: draws a frame only when the dirty flag is set. -/
def AppState.renderFrame {σ : Type} (st : AppState σ) : AppState σ :=
  if st.should_rerender then
    { st with frames_drawn := st.frames_drawn + 1, should_rerender := false }
  else st

/-- `handle_event`: the reaction to the (at most one) event received in
this iteration. -/
def handle_event {σ : Type} (M : CompModel σ) (st : AppState σ) (e : Event) :
    AppState σ :=
  match e with
  | .Quit => { st with should_quit := true }
  | .Tick => { st with action_queue := st.action_queue ++ [Action.Tick] }
  | .Render => st.renderFrame
  | .Resize => { st with should_rerender := true }
  | .Mouse =>
      let (c, r) := M.handle_mouse_event st.comp
      ({ st with comp := c }).flag_for_rerender r
  | .Key (some a) => { st with action_queue := st.action_queue ++ [a] }
  | .Key none => st
  | .Paste s =>
      { st with action_queue := st.action_queue ++ [Action.PasteText s] }
  | .Error msg =>
      { st with async_queue := st.async_queue ++ [AsyncAction.Error msg] }
  | .Init => st

/-- `handle_action`: non-blocking try-receive drain of the action queue;
`Action::Quit` sets the quit flag and returns immediately.  The `while
let` loop is given explicit fuel; the returned `Nat` is the fuel left
(positive fuel left means the loop exited by itself). -/
def drain_actions {σ : Type} (M : CompModel σ) :
    Nat → AppState σ → AppState σ × List Processed × Nat
  | 0, st => (st, [], 0)
  | fuel + 1, st =>
      match st.action_queue with
      | [] => (st, [], fuel + 1)
      | a :: rest =>
          let st1 := { st with action_queue := rest }
          match a with
          | .Quit =>
              ({ st1 with should_quit := true }, [Processed.act Action.Quit],
                fuel + 1)
          | _ =>
              let (c, res, sa, sb) := M.handle_action st1.comp a
              let st2 := { st1 with
                  comp := c
                  action_queue := st1.action_queue ++ sa
                  async_queue := st1.async_queue ++ sb }
              let st2 := st2.flag_for_rerender res
              let (st3, tr, fl) := drain_actions M fuel st2
              (st3, Processed.act a :: tr, fl)

/-- `handle_async_action`: same draining policy, no quit special case. -/
def drain_asyncs {σ : Type} (M : CompModel σ) :
    Nat → AppState σ → AppState σ × List Processed × Nat
  | 0, st => (st, [], 0)
  | fuel + 1, st =>
      match st.async_queue with
      | [] => (st, [], fuel + 1)
      | b :: rest =>
          let st1 := { st with async_queue := rest }
          let (c, res, sa, sb) := M.handle_async_action st1.comp b
          let st2 := { st1 with
              comp := c
              action_queue := st1.action_queue ++ sa
              async_queue := st1.async_queue ++ sb }
          let st2 := st2.flag_for_rerender res
          let (st3, tr, fl) := drain_asyncs M fuel st2
          (st3, Processed.async b :: tr, fl)

/-- One iteration of `App::run`'s loop: (1) the one received event,
(2) the action drain, (3) the async-action drain. -/
def loop_iteration {σ : Type} (M : CompModel σ) (fuel : Nat)
    (st : AppState σ) (e : Event) : AppState σ × List Processed :=
  let st1 := handle_event M st e
  let (st2, tr2, _) := drain_actions M fuel st1
  let (st3, tr3, _) := drain_asyncs M fuel st2
  (st3, Processed.ev e :: tr2 ++ tr3)

/-! # Claims -/

/-! ## C1 — overwrite confirmation flow -/

/-- A filesystem holding the existing target file `/d/f.txt`. -/
def c1_fs : FileSys := { files := [("/d/f.txt", "old")], dirs := ["/d"] }

/-- Editor with modified buffer text "new", no path yet, the save-to
selector open (the state right before the user picks `/d/f.txt`). -/
def c1_editor0 : EditorComponent :=
  { EditorComponent.empty with
      buffer := { Buffer.new none with
        text_area := { TextArea.empty with before := "new" }, modified := true }
      file_dialog := FileSelectorComponent.show c1_fs FileSelectorComponent.empty
        "/d" SelectorType.NewFile }

/-- The user picked `/d/f.txt` in the NewFile selector. -/
def c1_step1 : EditorOut :=
  EditorComponent.handle_async_action c1_fs c1_editor0
    (AsyncAction.SelectPath "/d/f.txt" SelectorType.NewFile)

/-- The spawned background write runs. -/
def c1_write : SaveFileResult × FileSys := write_file c1_fs "/d/f.txt" "new" false

/-- The write result arrives at the editor. -/
def c1_step2 : EditorOut :=
  EditorComponent.handle_async_action c1_fs c1_step1.editor
    (AsyncAction.SavedFile c1_write.1)

/-- The user confirms the overwrite dialog. -/
def c1_step3 : EditorOut :=
  EditorComponent.handle_action c1_fs c1_step2.editor Action.Confirm

/-- The reissued `Action::Save` is handled. -/
def c1_step4 : EditorOut :=
  EditorComponent.handle_action c1_fs c1_step3.editor Action.Save

/-- C1.  The first three parts of the claim hold on this trace: the save
to the existing `/d/f.txt` with overwrite=false spawns exactly that
write, `write_file` returns `ConfirmOverwrite` leaving the filesystem
untouched, and the editor's confirm dialog then holds `Action::Save` as
its pending confirm action, which `Confirm` re-emits.  The final part
fails: because `save_file_at` had already cleared `buffer.modified`
through `change_path` when the first save was spawned, the reissued
`Save` hits the unmodified-with-path guard of `handle_save_file` and is
rejected (`NotConsumed`, no write spawned) — the retry never succeeds and
the file still holds its old contents. -/
theorem c1_overwrite_confirm_then_retry_is_rejected :
    c1_step1.spawnedWrites =
        [{ path := "/d/f.txt", lines := "new", overwrite := false }]
      ∧ c1_step1.editor.buffer.modified = false
      ∧ c1_write = (SaveFileResult.ConfirmOverwrite, c1_fs)
      ∧ c1_step2.editor.confirm_dialog_component.action_on_confirm =
          some Action.Save
      ∧ c1_step3.sentActions = [Action.Save]
      ∧ c1_step4.result = ActionResult.NotConsumed false
      ∧ c1_step4.spawnedWrites = []
      ∧ c1_fs.readFile "/d/f.txt" = some "old" := by
  decide

/-! ## C2 — `AsyncAction::Navigate(None)` handling -/

/-- Navigator at Home with no previous screen and a registered action
sender — the state in which `return_last_component()` returns false. -/
def c2_nav : NavigatorComponent :=
  NavigatorComponent.new_with_starting_component AppComponent.HomeScreen true

/-- Navigator at the Editor screen (any state in which
`return_last_component()` succeeds). -/
def c2_nav2 : NavigatorComponent :=
  NavigatorComponent.new_with_starting_component AppComponent.Editor true

/-- C2, counterexample.  In the quit state the navigator does enqueue
`Action::Quit`, but the returned `ActionResult` is `Consumed` with
rerender=false (`ActionResult::consumed(false)` in the source), not the
`NotConsumed` result the claim states. -/
theorem c2_quit_branch_not_notconsumed :
    (c2_nav.handle_async_navigate none).2.2 = [Action.Quit]
      ∧ (c2_nav.handle_async_navigate none).2.1.is_not_consumed = false := by
  decide

/-- C2 (amended).  With a registered action sender, handling
`AsyncAction::Navigate(None)` when `return_last_component()` would return
false (no previous screen and already at Home) enqueues `Action::Quit`
and returns `Consumed` with rerender=false (not `NotConsumed`); in every
other state it returns `Consumed` with rerender=true and enqueues
nothing. -/
theorem c2_navigate_none_behavior (n : NavigatorComponent)
    (hs : n.has_action_sender = true) :
    ((n.previous_component = none
        ∧ n.current_component = AppComponent.HomeScreen) →
      n.handle_async_navigate none =
        (n, ActionResult.consumed false, [Action.Quit]))
    ∧ (¬(n.previous_component = none
          ∧ n.current_component = AppComponent.HomeScreen) →
      (n.handle_async_navigate none).2 = (ActionResult.consumed true, [])) := by
  constructor
  · rintro ⟨h1, h2⟩
    simp [NavigatorComponent.handle_async_navigate,
      NavigatorComponent.return_last_component, h1, h2, hs]
  · intro h
    rcases hp : n.previous_component with _ | p
    · have hc : n.current_component ≠ AppComponent.HomeScreen := by
        intro hcur
        exact h ⟨hp, hcur⟩
      simp [NavigatorComponent.handle_async_navigate,
        NavigatorComponent.return_last_component, hp, hc]
    · simp [NavigatorComponent.handle_async_navigate,
        NavigatorComponent.return_last_component, hp]

/-- C2, witness: the amended behavior evaluated at the two concrete
navigators. -/
theorem c2_navigate_none_behavior_witness :
    c2_nav.handle_async_navigate none =
        (c2_nav, ActionResult.consumed false, [Action.Quit])
      ∧ (c2_nav2.handle_async_navigate none).2 =
        (ActionResult.consumed true, []) :=
  ⟨(c2_navigate_none_behavior c2_nav (by decide)).1 (by decide),
   (c2_navigate_none_behavior c2_nav2 (by decide)).2 (by decide)⟩

/-! ## C3 — "back" navigation and the previous screen -/

/-- Completed navigation Editor → Home (leave transition finished, swap
performed by `start_enter_screen_transition`). -/
def c3_after : NavigatorComponent :=
  NavigatorComponent.render true
    ((NavigatorComponent.new_with_starting_component AppComponent.Editor
        true).navigate AppComponent.HomeScreen)

/-- C3, counterexample.  After the completed navigation from the Editor
screen (A) to Home (B), the navigator has not remembered A: the swap runs
through `start_enter_screen_transition`, which never assigns
`previous_component`, so `return_last_component()` finds no previous
screen, is already at Home, does not navigate back to the Editor and
returns false — the claim's "returns true and navigates back to A"
fails. -/
theorem c3_return_after_navigation_counterexample :
    c3_after.current_component = AppComponent.HomeScreen
      ∧ c3_after.previous_component = none
      ∧ (c3_after.return_last_component).2 = false := by
  decide

/-- C3 (amended).  The navigator never records a previous screen: it
starts with `previous_component = None` and no navigator operation
(navigate, return, render/transition-swap, async navigate) ever sets it,
so after any completed navigation `return_last_component()` falls back to
the Home screen — it returns true and starts a transition to Home exactly
when the current screen is not Home, and returns false at Home. -/
theorem c3_previous_never_recorded (n : NavigatorComponent)
    (h : n.previous_component = none) :
    (∀ c b, (NavigatorComponent.new_with_starting_component
        c b).previous_component = none)
    ∧ (∀ e : NavEvent, (NavigatorComponent.step e n).previous_component = none)
    ∧ (n.return_last_component).2 =
        decide (n.current_component ≠ AppComponent.HomeScreen)
    ∧ (n.current_component ≠ AppComponent.HomeScreen →
        (n.return_last_component).1 =
          n.start_leave_screen_transition AppComponent.HomeScreen) := by
  refine ⟨fun c b => rfl, ?_, ?_, ?_⟩
  · intro e
    cases e with
    | navigate c =>
        simp only [NavigatorComponent.step, NavigatorComponent.navigate,
          NavigatorComponent.start_leave_screen_transition]
        split <;> simp [h]
    | return_last =>
        simp only [NavigatorComponent.step,
          NavigatorComponent.return_last_component, h,
          NavigatorComponent.start_leave_screen_transition]
        split <;> simp [h]
    | render finished =>
        simp only [NavigatorComponent.step, NavigatorComponent.render]
        split
        · simp only [NavigatorComponent.start_enter_screen_transition]
          split <;> simp [h]
        · exact h
    | async_navigate c =>
        cases c with
        | some c =>
            simp only [NavigatorComponent.step,
              NavigatorComponent.handle_async_navigate,
              NavigatorComponent.navigate,
              NavigatorComponent.start_leave_screen_transition]
            split <;> simp [h]
        | none =>
            simp only [NavigatorComponent.step,
              NavigatorComponent.handle_async_navigate,
              NavigatorComponent.return_last_component, h,
              NavigatorComponent.start_leave_screen_transition]
            split <;> (try split) <;> simp [h]
  · simp only [NavigatorComponent.return_last_component, h]
    split <;> simp_all
  · intro hc
    simp [NavigatorComponent.return_last_component, h, hc]

/-- C3, witness: the amended behavior at concrete navigators — a
navigation step keeps `previous_component = None`, and from the Editor
screen `return_last_component` reports true (Home fallback). -/
theorem c3_previous_never_recorded_witness :
    (NavigatorComponent.step (NavEvent.navigate AppComponent.Editor)
        (NavigatorComponent.new_with_starting_component
          AppComponent.HomeScreen true)).previous_component = none
      ∧ ((NavigatorComponent.new_with_starting_component AppComponent.Editor
          true).return_last_component).2 = true := by
  constructor
  · exact (c3_previous_never_recorded _ (by decide)).2.1
      (NavEvent.navigate AppComponent.Editor)
  · have h := (c3_previous_never_recorded
      (NavigatorComponent.new_with_starting_component AppComponent.Editor true)
      (by decide)).2.2.1
    simpa using h

/-! ## C6 — `navigate(X)` twice constructs once -/

/-- C6.  `navigate` itself never tears down or constructs a component
(the swap is deferred behind the leave transition), a second `navigate`
with the same target is a state no-op, and running the deferred swap to
completion (two render frames with finished effects) after the double
call performs exactly one teardown and one construction when the target
differs from the current screen — and none when it does not. -/
theorem c6_navigate_twice_constructs_once (n : NavigatorComponent)
    (c : AppComponent) (h : n.transitioning = none) :
    (n.navigate c).navigate c = n.navigate c
      ∧ (n.navigate c).constructions = n.constructions
      ∧ (n.navigate c).teardowns = n.teardowns
      ∧ (NavigatorComponent.render true (NavigatorComponent.render true
            ((n.navigate c).navigate c))).constructions =
          n.constructions + (if n.current_component ≠ c then 1 else 0)
      ∧ (NavigatorComponent.render true (NavigatorComponent.render true
            ((n.navigate c).navigate c))).teardowns =
          n.teardowns + (if n.current_component ≠ c then 1 else 0) := by
  obtain ⟨cur, prev, trans, runn, send, cons, tear⟩ := n
  simp only at h
  subst h
  by_cases hc : cur = c
  · subst hc
    simp only [NavigatorComponent.navigate,
      NavigatorComponent.start_leave_screen_transition, ne_eq,
      not_true_eq_false, if_false, ite_false, NavigatorComponent.render,
      NavigatorComponent.start_enter_screen_transition]
    cases runn <;> simp
  · simp [NavigatorComponent.navigate,
      NavigatorComponent.start_leave_screen_transition, hc,
      NavigatorComponent.render, NavigatorComponent.start_enter_screen_transition]

/-- C6, witness: from Home with no pending transition, navigating twice
to the Editor screen and finishing the transition yields exactly one
extra construction and teardown. -/
theorem c6_navigate_twice_constructs_once_witness :
    (((NavigatorComponent.new_with_starting_component AppComponent.HomeScreen
          true).navigate AppComponent.Editor).navigate
        AppComponent.Editor).constructions = 1
      ∧ (NavigatorComponent.render true (NavigatorComponent.render true
          (((NavigatorComponent.new_with_starting_component
                AppComponent.HomeScreen true).navigate
              AppComponent.Editor).navigate
            AppComponent.Editor))).constructions = 2 := by
  have h := c6_navigate_twice_constructs_once
    (NavigatorComponent.new_with_starting_component AppComponent.HomeScreen true)
    AppComponent.Editor (by decide)
  refine ⟨?_, ?_⟩
  · have h2 := h.1
    have h3 := h.2.1
    rw [h2, h3]
    decide
  · have h4 := h.2.2.2.1
    rw [h4]
    decide

/-! ## C10 — the confirm dialog is fully modal while visible -/

/-- C10.  While the confirm dialog is visible (a pending confirm action
exists), `handle_action` returns a Consumed result for every action —
`Confirm` and `Cancel` consume with rerender, everything else consumes
without rerender — so nothing passes it to sibling widgets; while it is
hidden, every action yields `NotConsumed` with rerender=false and an
unchanged dialog with no sends. -/
theorem c10_confirm_dialog_modal (d : ConfirmDialogComponent) (a : Action) :
    (d.visible = true → ((d.handle_action a).2.1).is_consumed = true)
    ∧ (d.visible = false →
        d.handle_action a = (d, ActionResult.NotConsumed false, [])) := by
  constructor
  · intro hv
    rcases hp : d.action_on_confirm with _ | pending
    · simp [ConfirmDialogComponent.visible, hp] at hv
    · cases a <;>
        simp [ConfirmDialogComponent.handle_action, hp,
          ActionResult.is_consumed, ActionResult.consumed]
  · intro hv
    rcases hp : d.action_on_confirm with _ | pending
    · simp [ConfirmDialogComponent.handle_action, hp,
        ActionResult.not_consumed]
    · simp [ConfirmDialogComponent.visible, hp] at hv

/-- C10, witness: a visible dialog (pending `Save`) consumes the
unrelated action `Up`; the hidden dialog lets `Cancel` pass with
`NotConsumed` and no rerender. -/
theorem c10_confirm_dialog_modal_witness :
    ((ConfirmDialogComponent.handle_action
        { title := "t", message := "m", action_on_confirm := some Action.Save }
        Action.Up).2.1).is_consumed = true
    ∧ ConfirmDialogComponent.handle_action ConfirmDialogComponent.empty
        Action.Cancel =
      (ConfirmDialogComponent.empty, ActionResult.NotConsumed false, []) :=
  ⟨(c10_confirm_dialog_modal
      { title := "t", message := "m", action_on_confirm := some Action.Save }
      Action.Up).1 (by decide),
   (c10_confirm_dialog_modal ConfirmDialogComponent.empty Action.Cancel).2
      (by decide)⟩

/-! ## C5 — plain arrows cancel the selection, shift-arrows start one -/

/-- An empty filesystem for the editor-action claims. -/
def fs0 : FileSys := { files := [], dirs := [] }

/-- Editor with an active selection and a visible confirm dialog. -/
def c5_editor : EditorComponent :=
  { EditorComponent.empty with
      buffer := { Buffer.new none with
        text_area := { TextArea.empty with
          before := "a", sel := "bc", selecting := true } }
      confirm_dialog_component :=
        { title := "t", message := "m", action_on_confirm := some Action.Save } }

/-- C5, counterexample.  Not every editor state cancels the selection on
a plain directional action: while the confirm dialog overlay is visible
it consumes `Up` before the directional arm runs, so the selection stays
active and the cursor does not move — the claim's "for every editor
state ... after any plain directional action the selection is always
cancelled and the cursor moved" fails. -/
theorem c5_overlay_blocks_directional_counterexample :
    c5_editor.buffer.text_area.selecting = true
      ∧ (EditorComponent.handle_action fs0 c5_editor
            Action.Up).editor.buffer.text_area = c5_editor.buffer.text_area
      ∧ ((EditorComponent.handle_action fs0 c5_editor
            Action.Up).result).is_consumed = true := by
  decide

/-- C5 (amended).  Whenever the directional action actually reaches the
editor's own handler — no overlay child (confirm dialog, file dialog,
search box, help) is in a state that consumes it — a plain directional
action (Up/Down/Left/Right) cancels the selection before moving the
cursor (the handler is exactly cancel-then-move, so the selection is
always cancelled afterwards and the move is issued on the cancelled text
area), and a Select-variant directional action starts a selection first
if one is not already active. -/
theorem c5_directional_selection_discipline (fs : FileSys)
    (ed : EditorComponent)
    (hc : ed.confirm_dialog_component.action_on_confirm = none)
    (hf : ed.file_dialog.visible = false)
    (hs : ed.search_box_component.text_area = none)
    (hh : ed.help_component.visible = false) :
    EditorComponent.handle_action fs ed Action.Up =
        (ed.stop_selection).move_cursor CursorMove.Up
      ∧ EditorComponent.handle_action fs ed Action.Down =
        (ed.stop_selection).move_cursor CursorMove.Down
      ∧ EditorComponent.handle_action fs ed Action.Left =
        (ed.stop_selection).move_cursor CursorMove.Back
      ∧ EditorComponent.handle_action fs ed Action.Right =
        (ed.stop_selection).move_cursor CursorMove.Forward
      ∧ EditorComponent.handle_action fs ed Action.SelectUp =
        (ed.start_selection).move_cursor CursorMove.Up
      ∧ EditorComponent.handle_action fs ed Action.SelectDown =
        (ed.start_selection).move_cursor CursorMove.Down
      ∧ EditorComponent.handle_action fs ed Action.SelectLeft =
        (ed.start_selection).move_cursor CursorMove.Back
      ∧ EditorComponent.handle_action fs ed Action.SelectRight =
        (ed.start_selection).move_cursor CursorMove.Forward
      ∧ (∀ m : CursorMove,
          ((ed.stop_selection).move_cursor m).editor.buffer.text_area.selecting
              = false
            ∧ ((ed.stop_selection).move_cursor m).result =
              ActionResult.consumed true) := by
  have hmv : ∀ m : CursorMove,
      ((ed.stop_selection).move_cursor m).editor.buffer.text_area.selecting
          = false
        ∧ ((ed.stop_selection).move_cursor m).result =
          ActionResult.consumed true := by
    intro m
    cases m <;>
      simp [EditorComponent.stop_selection, EditorComponent.move_cursor,
        TextArea.cancel_selection, TextArea.move_cursor, EditorOut.plain]
  refine ⟨?_, ?_, ?_, ?_, ?_, ?_, ?_, ?_, hmv⟩
  all_goals
    simp [EditorComponent.handle_action, EditorComponent.child_handle_action,
      NotificationComponent.handle_action_ref,
      ConfirmDialogComponent.handle_action, hc,
      FileSelectorComponent.handle_action, hf,
      SearchBoxComponent.handle_action, SearchBoxComponent.visible, hs,
      HelpComponent.handle_action, hh,
      ActionResult.is_consumed, ActionResult.not_consumed,
      ActionResult.defaultResult]

/-- C5, witness: with all overlays hidden and a selection active, `Up`
leaves the selection cancelled and `SelectLeft` leaves one active. -/
theorem c5_directional_selection_discipline_witness :
    (EditorComponent.handle_action fs0
        { EditorComponent.empty with
            buffer := { Buffer.new none with
              text_area := { TextArea.empty with
                before := "a", sel := "bc", selecting := true } } }
        Action.Up).editor.buffer.text_area.selecting = false
      ∧ (EditorComponent.handle_action fs0
          { EditorComponent.empty with
              buffer := { Buffer.new none with
                text_area := { TextArea.empty with before := "a" } } }
          Action.SelectLeft).editor.buffer.text_area.selecting = true := by
  constructor
  · have h := (c5_directional_selection_discipline fs0
      { EditorComponent.empty with
          buffer := { Buffer.new none with
            text_area := { TextArea.empty with
              before := "a", sel := "bc", selecting := true } } }
      (by decide) (by decide) (by decide) (by decide)).1
    rw [h]
    decide
  · have h := (c5_directional_selection_discipline fs0
      { EditorComponent.empty with
          buffer := { Buffer.new none with
            text_area := { TextArea.empty with before := "a" } } }
      (by decide) (by decide) (by decide) (by decide)).2.2.2.2.2.2.1
    rw [h]
    decide

/-! ## C4 — the `modified` flag discipline -/

/-- Editor on a saved file (`modified = false`), cursor before the
character "x", clipboard available with contents "zz". -/
def c4_editor : EditorComponent :=
  { EditorComponent.empty with
      buffer := { Buffer.new (some "/d/f.txt") with
        text_area := { TextArea.empty with before := "a", after := "x" }
        clipboard_context := some "zz" } }

/-- Same editor with the character "x" selected. -/
def c4_sel_editor : EditorComponent :=
  { EditorComponent.empty with
      buffer := { Buffer.new (some "/d/f.txt") with
        text_area := { TextArea.empty with
          before := "a", sel := "x", selecting := true }
        clipboard_context := some "zz" } }

/-- Same editor with pending modifications. -/
def c4_modified_editor : EditorComponent :=
  { EditorComponent.empty with
      buffer := { Buffer.new (some "/d/f.txt") with
        text_area := { TextArea.empty with before := "ax" }
        modified := true } }

/-- C4.  Evaluating the code at the failing inputs: `Delete`, `Cut` and
`Paste` all change the buffer text but leave `modified = false` (after a
`Delete` the subsequent `Save` is even refused as "unmodified", so the
deletion cannot be saved), whereas `Character` does set it; and
dispatching `Save` on a modified buffer clears `modified` already when
the background write is merely spawned (`saving_file = true`, the write
task still pending), not on save completion. -/
theorem c4_modified_flag_violations :
    ((EditorComponent.handle_action fs0 c4_editor
          Action.Delete).editor.buffer.modified = false
        ∧ (EditorComponent.handle_action fs0 c4_editor
            Action.Delete).editor.buffer.text_area.text = "a"
        ∧ c4_editor.buffer.text_area.text = "ax")
      ∧ ((EditorComponent.handle_action fs0 (EditorComponent.handle_action fs0
            c4_editor Action.Delete).editor Action.Save).result =
          ActionResult.NotConsumed false
        ∧ (EditorComponent.handle_action fs0 (EditorComponent.handle_action fs0
            c4_editor Action.Delete).editor Action.Save).spawnedWrites = [])
      ∧ ((EditorComponent.handle_action fs0 c4_sel_editor
            Action.Cut).editor.buffer.modified = false
        ∧ (EditorComponent.handle_action fs0 c4_sel_editor
            Action.Cut).editor.buffer.text_area.text = "a")
      ∧ ((EditorComponent.handle_action fs0 c4_editor
            Action.Paste).editor.buffer.modified = false
        ∧ (EditorComponent.handle_action fs0 c4_editor
            Action.Paste).editor.buffer.text_area.text = "azzx")
      ∧ (EditorComponent.handle_action fs0 c4_editor
          (Action.Character 'q')).editor.buffer.modified = true
      ∧ ((EditorComponent.handle_action fs0 c4_modified_editor
            Action.Save).editor.buffer.modified = false
        ∧ (EditorComponent.handle_action fs0 c4_modified_editor
            Action.Save).editor.saving_file = true
        ∧ (EditorComponent.handle_action fs0 c4_modified_editor
            Action.Save).spawnedWrites =
          [{ path := "/d/f.txt", lines := "ax", overwrite := true }]) := by
  decide

/-! ## C9 — clipboard unavailable -/

/-- Editor with the clipboard capability unavailable, a selection
active, and no notification showing. -/
def c9_editor : EditorComponent :=
  { EditorComponent.empty with
      buffer := { Buffer.new none with
        text_area := { TextArea.empty with
          before := "a", sel := "x", selecting := true }
        clipboard_context := none } }

/-- C9, counterexample.  With the clipboard capability unavailable,
`Paste` does not surface any notification: the editor state is completely
unchanged (no notification was raised) and the action is merely consumed
without rerender — the claim's "the failure is surfaced to the user via a
notification" fails for Paste. -/
theorem c9_paste_fails_silently_counterexample :
    c9_editor.buffer.clipboard_context = none
      ∧ (EditorComponent.handle_action fs0 c9_editor Action.Paste).editor =
        c9_editor
      ∧ (EditorComponent.handle_action fs0 c9_editor
          Action.Paste).editor.notification.notification = none
      ∧ (EditorComponent.handle_action fs0 c9_editor Action.Paste).result =
        ActionResult.Consumed false := by
  decide

/-- C9 (amended).  When the clipboard capability is unavailable and the
action reaches the editor (no overlay consumes it): `Cut` and `Copy` on a
non-empty selection no-op on the clipboard and surface the failure as the
error notification "Clipboard is unavailable"; `Paste` no-ops silently —
it leaves the editor unchanged (no notification) and returns Consumed
without rerender.  None of the three panics (all handlers are total
functions of the model). -/
theorem c9_clipboard_unavailable_behavior (fs : FileSys)
    (ed : EditorComponent)
    (hclip : ed.buffer.clipboard_context = none)
    (hsel : ed.buffer.text_area.selecting = true)
    (hne : ed.buffer.text_area.sel ≠ "")
    (hc : ed.confirm_dialog_component.action_on_confirm = none)
    (hf : ed.file_dialog.visible = false)
    (hs : ed.search_box_component.text_area = none)
    (hh : ed.help_component.visible = false) :
    ((EditorComponent.handle_action fs ed
          Action.Cut).editor.notification.notification =
        some { title := TickCount.new "Clipboard is unavailable", error := true }
      ∧ (EditorComponent.handle_action fs ed Action.Cut).result =
        ActionResult.consumed true)
    ∧ ((EditorComponent.handle_action fs ed
          Action.Copy).editor.notification.notification =
        some { title := TickCount.new "Clipboard is unavailable", error := true }
      ∧ (EditorComponent.handle_action fs ed Action.Copy).result =
        ActionResult.consumed true)
    ∧ ((EditorComponent.handle_action fs ed Action.Paste).editor = ed
      ∧ (EditorComponent.handle_action fs ed Action.Paste).result =
        ActionResult.consumed false) := by
  have hpaste : (EditorComponent.handle_action fs ed Action.Paste).editor
      = ed := by
    simp [EditorComponent.handle_action, EditorComponent.child_handle_action,
      NotificationComponent.handle_action_ref,
      ConfirmDialogComponent.handle_action, hc,
      FileSelectorComponent.handle_action, hf,
      SearchBoxComponent.handle_action, SearchBoxComponent.visible, hs,
      HelpComponent.handle_action, hh,
      EditorComponent.paste_text_from_clipboard,
      Buffer.get_from_clipboard, hclip, EditorOut.plain,
      ActionResult.is_consumed, ActionResult.not_consumed,
      ActionResult.defaultResult]
    rw [← hclip]
  refine ⟨⟨?_, ?_⟩, ⟨?_, ?_⟩, hpaste, ?_⟩ <;>
    simp [EditorComponent.handle_action, EditorComponent.child_handle_action,
      NotificationComponent.handle_action_ref,
      ConfirmDialogComponent.handle_action, hc,
      FileSelectorComponent.handle_action, hf,
      SearchBoxComponent.handle_action, SearchBoxComponent.visible, hs,
      HelpComponent.handle_action, hh,
      EditorComponent.cut_selection, EditorComponent.copy_selection,
      EditorComponent.paste_text_from_clipboard,
      EditorComponent.stop_selection, TextArea.cut, TextArea.copy,
      TextArea.yank_text, TextArea.cancel_selection, hsel, hne,
      Buffer.push_to_clipboard, Buffer.get_from_clipboard, hclip,
      NotificationComponent.notify_error, EditorOut.plain,
      ActionResult.is_consumed, ActionResult.not_consumed,
      ActionResult.defaultResult, ActionResult.consumed]

/-- C9, witness: the amended behavior evaluated at the concrete
clipboard-less editor. -/
theorem c9_clipboard_unavailable_behavior_witness :
    (EditorComponent.handle_action fs0 c9_editor
        Action.Cut).editor.notification.notification =
      some { title := TickCount.new "Clipboard is unavailable", error := true }
    ∧ (EditorComponent.handle_action fs0 c9_editor Action.Paste).editor =
      c9_editor :=
  ⟨(c9_clipboard_unavailable_behavior fs0 c9_editor (by decide) (by decide)
      (by decide) (by decide) (by decide) (by decide) (by decide)).1.1,
   (c9_clipboard_unavailable_behavior fs0 c9_editor (by decide) (by decide)
      (by decide) (by decide) (by decide) (by decide) (by decide)).2.2.1⟩

/-! ## C8 — file-history rewrite on drop -/

/-- Saver invariant: both sets duplicate-free and disjoint. -/
def FileHistorySaver.inv (s : FileHistorySaver) : Prop :=
  s.new.Nodup ∧ s.current.Nodup ∧ ∀ x ∈ s.new, x ∉ s.current

theorem push_to_history_inv (s : FileHistorySaver) (f : String)
    (h : s.inv) : (s.push_to_history f).inv := by
  obtain ⟨hn, hc, hd⟩ := h
  refine ⟨?_, ?_, ?_⟩
  · simp only [FileHistorySaver.push_to_history]
    split
    · exact hn
    · next hf =>
        simpa [List.nodup_append] using ⟨hn, hf⟩
  · simp only [FileHistorySaver.push_to_history]
    exact List.Nodup.filter _ hc
  · intro x hx hx'
    simp only [FileHistorySaver.push_to_history, List.mem_filter] at hx hx'
    rcases hx' with ⟨hxc, hxf⟩
    revert hx
    split
    · intro hx
      exact hd x hx hxc
    · intro hx
      rcases List.mem_append.1 hx with hx | hx
      · exact hd x hx hxc
      · simp only [List.mem_singleton] at hx
        subst hx
        simp at hxf

theorem push_to_history_mem (s : FileHistorySaver) (f x : String) :
    (x ∈ (s.push_to_history f).new ∨ x ∈ (s.push_to_history f).current) ↔
      (x = f ∨ x ∈ s.new ∨ x ∈ s.current) := by
  simp only [FileHistorySaver.push_to_history, List.mem_filter]
  constructor
  · intro h
    rcases h with h | ⟨h, _⟩
    · revert h
      split
      · intro h
        exact Or.inr (Or.inl h)
      · intro h
        rcases List.mem_append.1 h with h | h
        · exact Or.inr (Or.inl h)
        · simp only [List.mem_singleton] at h
          exact Or.inl h
    · exact Or.inr (Or.inr h)
  · intro h
    by_cases hxf : x = f
    · subst hxf
      left
      split
      · assumption
      · exact List.mem_append.2 (Or.inr (by simp))
    · rcases h with h | h | h
      · exact absurd h hxf
      · left
        split
        · exact h
        · exact List.mem_append.2 (Or.inl h)
      · right
        simpa [hxf] using h

theorem foldl_push_inv (pushes : List String) (s : FileHistorySaver)
    (h : s.inv) :
    (pushes.foldl FileHistorySaver.push_to_history s).inv := by
  induction pushes generalizing s with
  | nil => exact h
  | cons f rest ih =>
      exact ih (s.push_to_history f) (push_to_history_inv s f h)

theorem foldl_push_mem (pushes : List String) (s : FileHistorySaver)
    (x : String) :
    (x ∈ (pushes.foldl FileHistorySaver.push_to_history s).new
        ∨ x ∈ (pushes.foldl FileHistorySaver.push_to_history s).current) ↔
      (x ∈ pushes ∨ x ∈ s.new ∨ x ∈ s.current) := by
  induction pushes generalizing s with
  | nil => simp
  | cons f rest ih =>
      simp only [List.foldl_cons, List.mem_cons]
      rw [ih (s.push_to_history f), push_to_history_mem]
      tauto

/-- The saver built by loading `current₀` from disk and pushing the
paths of `pushes` in order. -/
def c8_saver (current₀ pushes : List String) : FileHistorySaver :=
  pushes.foldl FileHistorySaver.push_to_history
    (FileHistorySaver.loaded "/data/file_history.txt" current₀)

/-- C8, counterexample.  Pushing `/a` then `/b` onto an empty history:
the line list `[/a, /b]` is an admissible rewrite (the hash-set iteration
order is unspecified, and this is exactly the insertion order), yet its
first line is not the most recently pushed path `/b` — the claimed
most-recent-first ordering is not guaranteed. -/
theorem c8_not_most_recent_first_counterexample :
    (c8_saver [] ["/a", "/b"]).admissible_output ["/a", "/b"]
      ∧ (["/a", "/b"].head? = some "/b") = False := by
  refine ⟨⟨["/a", "/b"], [], ?_, ?_, rfl⟩, by simp⟩
  · exact List.Perm.refl _
  · exact List.Perm.refl _

/-- C8 (amended).  When the tracker (loaded from a duplicate-free
history file) is dropped after pushes, every admissible rewritten file —
all of `new` in some iteration order, then all of the remaining
`current` in some iteration order, one path per line — contains each
recorded path (pushed or previously on disk) exactly once, deduplicated
by path, with every newly pushed path before every remaining old one;
but the order inside each of the two groups is the unspecified hash-set
iteration order, so most-recent-first is not guaranteed. -/
theorem c8_history_rewrite_dedup (current₀ pushes out : List String)
    (h0 : current₀.Nodup)
    (hadm : (c8_saver current₀ pushes).admissible_output out) :
    out.Nodup ∧ ∀ p, p ∈ out ↔ (p ∈ pushes ∨ p ∈ current₀) := by
  obtain ⟨n, c, hn, hc, rfl⟩ := hadm
  have hinv : (c8_saver current₀ pushes).inv := by
    refine foldl_push_inv pushes _ ⟨List.nodup_nil, h0, ?_⟩
    intro x hx
    simp [FileHistorySaver.loaded] at hx
  have hmem := foldl_push_mem pushes
    (FileHistorySaver.loaded "/data/file_history.txt" current₀)
  constructor
  · refine List.Nodup.append (hn.nodup_iff.2 hinv.1) (hc.nodup_iff.2 hinv.2.1) ?_
    intro x hxn hxc
    exact hinv.2.2 x (hn.mem_iff.1 hxn) (hc.mem_iff.1 hxc)
  · intro p
    rw [List.mem_append, hn.mem_iff, hc.mem_iff]
    have h := hmem p
    simpa [c8_saver, FileHistorySaver.loaded] using h

/-- C8, witness: pushing `/b` onto a history already holding `/a` and
`/b`, the admissible output `[/b, /a]` holds each path once. -/
theorem c8_history_rewrite_dedup_witness :
    (["/b", "/a"].Nodup ∧ ∀ p, p ∈ ["/b", "/a"] ↔
      (p ∈ ["/b"] ∨ p ∈ ["/a", "/b"])) := by
  refine c8_history_rewrite_dedup ["/a", "/b"] ["/b"] ["/b", "/a"]
    (by decide) ⟨["/b"], ["/a"], ?_, ?_, rfl⟩
  · exact List.Perm.refl _
  · exact List.Perm.refl _

/-! ## C7 — event-loop phase ordering -/

theorem drain_actions_trace_acts {σ : Type} (M : CompModel σ) :
    ∀ (fuel : Nat) (st : AppState σ),
      ∀ x ∈ (drain_actions M fuel st).2.1, x.isAct = true := by
  intro fuel
  induction fuel with
  | zero =>
      intro st x hx
      simp [drain_actions] at hx
  | succ n ih =>
      intro st x hx
      rw [drain_actions] at hx
      rcases hq : st.action_queue with _ | ⟨a, rest⟩ <;> rw [hq] at hx
      · simp at hx
      · cases a <;> simp only [] at hx <;>
          first
          | (rcases List.mem_cons.1 hx with h | h
             · subst h; rfl
             · exact ih _ x h)
          | (rcases List.mem_cons.1 hx with h | h
             · subst h; rfl
             · simp at h)

theorem drain_asyncs_trace_asyncs {σ : Type} (M : CompModel σ) :
    ∀ (fuel : Nat) (st : AppState σ),
      ∀ x ∈ (drain_asyncs M fuel st).2.1, x.isAsync = true := by
  intro fuel
  induction fuel with
  | zero =>
      intro st x hx
      simp [drain_asyncs] at hx
  | succ n ih =>
      intro st x hx
      rw [drain_asyncs] at hx
      rcases hq : st.async_queue with _ | ⟨b, rest⟩ <;> rw [hq] at hx
      · simp at hx
      · simp only [] at hx
        rcases List.mem_cons.1 hx with h | h
        · subst h; rfl
        · exact ih _ x h

theorem drain_actions_stops_empty_or_quit {σ : Type} (M : CompModel σ) :
    ∀ (fuel : Nat) (st : AppState σ), (drain_actions M fuel st).2.2 ≠ 0 →
      (drain_actions M fuel st).1.action_queue = []
        ∨ (drain_actions M fuel st).1.should_quit = true := by
  intro fuel
  induction fuel with
  | zero =>
      intro st h
      simp [drain_actions] at h
  | succ n ih =>
      intro st h
      rw [drain_actions] at h ⊢
      rcases hq : st.action_queue with _ | ⟨a, rest⟩
      · rw [hq] at h
        dsimp only at h ⊢
        left
        exact hq
      · rw [hq] at h
        cases a <;> dsimp only at h ⊢ <;>
          first
          | (right; rfl)
          | (exact ih _ h)

/-- C7 (amended).  In each iteration of the `App::run` loop: exactly one
event is handled first; then the action queue is drained with
non-blocking try-receive until it is empty or an `Action::Quit` is
dequeued (Quit sets the quit flag and ends the action phase early,
leaving later actions queued); only after the action phase are
async actions drained — the iteration's trace is the event, then only
action entries, then only async entries, so no `AsyncAction` is ever
observed mid-action-drain. -/
theorem c7_iteration_phase_order {σ : Type} (M : CompModel σ) (fuel : Nat)
    (st : AppState σ) (e : Event) :
    (loop_iteration M fuel st e).2 =
        Processed.ev e ::
          ((drain_actions M fuel (handle_event M st e)).2.1 ++
            (drain_asyncs M fuel
              (drain_actions M fuel (handle_event M st e)).1).2.1)
      ∧ (∀ x ∈ (drain_actions M fuel (handle_event M st e)).2.1,
          x.isAct = true)
      ∧ (∀ x ∈ (drain_asyncs M fuel
            (drain_actions M fuel (handle_event M st e)).1).2.1,
          x.isAsync = true)
      ∧ ((drain_actions M fuel (handle_event M st e)).2.2 ≠ 0 →
          (drain_actions M fuel (handle_event M st e)).1.action_queue = []
            ∨ (drain_actions M fuel
                (handle_event M st e)).1.should_quit = true) :=
  ⟨rfl,
   drain_actions_trace_acts M fuel (handle_event M st e),
   drain_asyncs_trace_asyncs M fuel (drain_actions M fuel
     (handle_event M st e)).1,
   drain_actions_stops_empty_or_quit M fuel (handle_event M st e)⟩

/-- A trivial component: consumes nothing, sends nothing. -/
def trivialComp : CompModel Unit :=
  { handle_action := fun _ _ => ((), ActionResult.defaultResult, [], [])
    handle_async_action := fun _ _ => ((), ActionResult.defaultResult, [], [])
    handle_mouse_event := fun _ => ((), ActionResult.defaultResult) }

/-- App state with `Quit` queued in front of another action and a queued
async action. -/
def c7_state : AppState Unit :=
  { should_quit := false, should_rerender := false
    action_queue := [Action.Quit, Action.Tick]
    async_queue := [AsyncAction.Error "boom"], comp := (), frames_drawn := 0 }

/-- App state with no `Quit` queued. -/
def c7_state2 : AppState Unit :=
  { should_quit := false, should_rerender := false
    action_queue := [Action.Tick, Action.Up]
    async_queue := [], comp := (), frames_drawn := 0 }

/-- C7, counterexample.  With `[Quit, Tick]` queued and one queued
async action, the iteration dequeues `Quit`, stops the action drain
early and still processes the async action: the async is handled in the
same iteration while `Tick` is still queued, so "all Actions queued at
that point are drained before any AsyncAction is processed" fails. -/
theorem c7_quit_stops_drain_counterexample :
    (loop_iteration trivialComp 10 c7_state Event.Init).2 =
        [Processed.ev Event.Init, Processed.act Action.Quit,
          Processed.async (AsyncAction.Error "boom")]
      ∧ (loop_iteration trivialComp 10 c7_state
          Event.Init).1.action_queue = [Action.Tick] := by
  decide

/-- C7, witness: the amended phase ordering applied at the trivial
component — with fuel left after the drain and no `Quit` dequeued, the
action queue was in fact drained to empty. -/
theorem c7_iteration_phase_order_witness :
    (drain_actions trivialComp 5
        (handle_event trivialComp c7_state2 Event.Init)).1.action_queue = []
      ∨ (drain_actions trivialComp 5
          (handle_event trivialComp c7_state2 Event.Init)).1.should_quit =
        true :=
  (c7_iteration_phase_order trivialComp 5 c7_state2 Event.Init).2.2.2
    (by decide)

end Texti
